import Mathlib

/-!
Verification development for the LRR brain signal engine
(`fxai_lrr_brain.py`).  The Python module is shallowly embedded below:
prices, spreads and scores become rationals (`ℚ`), numpy structured
arrays become lists of `Bar` records, dataclasses become structures,
and the module-level mutable state (`g_daily`, `g_hb`, `g_spread_med`)
becomes explicit state passing.  Log statements and the numeric
interpolation inside human-readable `reason` strings are elided (the
`reason` fields carry the fixed tag of the branch instead); no claim
concerns them.  Each definition cites the source lines it embeds.
-/

namespace LRR

/-! ## Configuration constants (fxai_lrr_brain.py section 2 and later) -/

/-- SWEEP_MIN_PIPS = 0.02 (line 92). -/
def SWEEP_MIN_PIPS : ℚ := 2/100

/-- SWEEP_MAX_PIPS = 0.50 (line 93). -/
def SWEEP_MAX_PIPS : ℚ := 1/2

/-- SPREAD_MED_LR = 0.03 (line 116). -/
def SPREAD_MED_LR : ℚ := 3/100

/-- MAX_ENTRIES_PER_DAY = 3 (line 101). -/
def MAX_ENTRIES_PER_DAY : ℤ := 3

/-- MAX_CONSEC_LOSSES = 3 (line 102). -/
def MAX_CONSEC_LOSSES : ℤ := 3

/-- DAILY_LOSS_CAP_PCT = 2.0 (line 103). -/
def DAILY_LOSS_CAP_PCT : ℚ := 2

/-- VOLUME_LOOKBACK = 10 (line 96). -/
def VOLUME_LOOKBACK : ℕ := 10

/-- VOLUME_MULT_FILTER = 1.3 (line 95). -/
def VOLUME_MULT_FILTER : ℚ := 13/10

/-- TV_SIGNAL_STALE_SEC = 60 (line 125). -/
def TV_SIGNAL_STALE_SEC : ℚ := 60

/-- DIST_HARD_REJECT = 5.0 (line 847). -/
def DIST_HARD_REJECT : ℚ := 5

/-- DIST_OVERRIDE_THR = 4.0 (line 848). -/
def DIST_OVERRIDE_THR : ℚ := 4

/-- ATS_HARD_REJECT = 10.0 (line 849). -/
def ATS_HARD_REJECT : ℚ := 10

/-- ATS_WARN_THR = 15.0 (line 850). -/
def ATS_WARN_THR : ℚ := 15

/-- VOL_SQUEEZE_THR = 0.85 (line 851). -/
def VOL_SQUEEZE_THR : ℚ := 85/100

/-- VOL_PANIC_THR = 2.0 (line 852). -/
def VOL_PANIC_THR : ℚ := 2

/-- ATR24H_BARS = 288 (line 853). -/
def ATR24H_BARS : ℕ := 288

/-- SMA20_PERIOD = 20 (line 846). -/
def SMA20_PERIOD : ℕ := 20

/-- GATE_MIN_SCORE = 30 (line 1300). -/
def GATE_MIN_SCORE : ℚ := 30

/-- GATE_STRONG_SCORE = 60 (line 1301). -/
def GATE_STRONG_SCORE : ℚ := 60

/-- LC_NEIGHBORS = 8 (line 931). -/
def LC_NEIGHBORS : ℕ := 8

/-- LC_MAX_BARS_BK = 200 (line 932). -/
def LC_MAX_BARS_BK : ℕ := 200

/-- LC_MIN_BARS_BK = 4 (line 933). -/
def LC_MIN_BARS_BK : ℕ := 4

/-- QTREND_FAST_EMA = 8 (line 1068). -/
def QTREND_FAST_EMA : ℕ := 8

/-- QTREND_SLOW_EMA = 21 (line 1069). -/
def QTREND_SLOW_EMA : ℕ := 21

/-- QTREND_ADX_THR = 0.30 (line 1070). -/
def QTREND_ADX_THR : ℚ := 3/10

/-- OSGFC_EMA_PERIOD = 34 (line 1234). -/
def OSGFC_EMA_PERIOD : ℕ := 34

/-- ZONE_WIDTH_FACTOR = 0.4 (line 1124). -/
def ZONE_WIDTH_FACTOR : ℚ := 2/5

/-- ZONE_SWING_PERIOD = 5 (line 1125). -/
def ZONE_SWING_PERIOD : ℕ := 5

/-- ZONE_MIN_TOUCHES = 2 (line 1126). -/
def ZONE_MIN_TOUCHES : ℕ := 2

/-- M15_FVG_LOOKBACK = 20 (line 1262). -/
def M15_FVG_LOOKBACK : ℕ := 20

/-! ## Bars and numpy-style list helpers -/

/-- One OHLCV candle: a row of the numpy structured arrays returned by
`copy_rates_from_pos`.  Field `open_` stands for the Python key
`"open"` (a Lean keyword). -/
structure Bar where
  open_ : ℚ := 0
  high : ℚ := 0
  low : ℚ := 0
  close : ℚ := 0
  tick_volume : ℚ := 0
deriving DecidableEq

/-- Python `arr[-k:]` for a positive literal `k`. -/
def takeLast (k : ℕ) (l : List α) : List α := l.drop (l.length - k)

/-- Python `np.mean`; call sites are guarded so the list is never
empty there (`np.mean([])` is NaN in Python, unreachable here). -/
def npMean (l : List ℚ) : ℚ := if l.length = 0 then 0 else l.sum / l.length

/-- Python `l[-1]` under a nonemptiness guard. -/
def listLast (l : List ℚ) : ℚ := l.getLastD 0

/-- Python `rates[-1]` under a nonemptiness guard. -/
def lastBar (l : List Bar) : Bar := l.getLastD {}

/-- Python `np.diff`: successive differences. -/
def npDiff (l : List ℚ) : List ℚ := List.zipWith (fun a b => b - a) l l.tail

/-- Column `rates["close"]`. -/
def closesOf (l : List Bar) : List ℚ := l.map (fun b => b.close)

/-- Column `rates["high"]`. -/
def highsOf (l : List Bar) : List ℚ := l.map (fun b => b.high)

/-- Column `rates["low"]`. -/
def lowsOf (l : List Bar) : List ℚ := l.map (fun b => b.low)

/-- Column `rates["tick_volume"]`. -/
def volsOf (l : List Bar) : List ℚ := l.map (fun b => b.tick_volume)

/-! ## calc_atr (lines 274-288) -/

/-- True-range list: `tr[i]` pairs bar `i+1` with the previous close,
as in lines 281-287. -/
def trueRanges (rates : List Bar) : List ℚ :=
  List.zipWith
    (fun prev cur =>
      max (cur.high - cur.low) (max |cur.high - prev.close| |cur.low - prev.close|))
    rates rates.tail

/-- `calc_atr(rates, period)` (lines 274-288): SMA of the last `period`
true ranges, 0 when fewer than `period + 1` bars. -/
def calc_atr (rates : List Bar) (period : ℕ) : ℚ :=
  if rates.length < period + 1 then 0
  else npMean (takeLast period (trueRanges rates))

/-! ## update_spread_med (lines 263-268), state passed explicitly -/

/-- Robbins-Monro update `med += lr * sign(spread - med)` with the
global `g_spread_med` passed in and returned. -/
def update_spread_med (med spread : ℚ) : ℚ :=
  let diff := spread - med
  med + SPREAD_MED_LR * (if diff > 0 then 1 else if diff < 0 then -1 else 0)

/-- `n` consecutive `update_spread_med` calls observing the constant
spread `x`. -/
def iterate_spread_med (x : ℚ) : ℕ → ℚ → ℚ
  | 0, med => med
  | n + 1, med => iterate_spread_med x n (update_spread_med med x)

/-! ## detect_sweep (lines 383-419) -/

/-- `detect_sweep(bar, swing_high, swing_low, atr_m5)`: the pair
`(action, sweep_extreme)` with `action ∈ {"BUY","SELL"}` or `none`.
The `atr_m5` argument is unused in the source body as well. -/
def detect_sweep (bar : Bar) (swing_high swing_low atr_m5 : ℚ) : Option String × ℚ :=
  let body := |bar.close - bar.open_|
  if bar.high > swing_high + SWEEP_MIN_PIPS then
    let overshoot := bar.high - swing_high
    if overshoot > SWEEP_MAX_PIPS then (none, 0)
    else if bar.close ≥ swing_high then (none, 0)
    else
      let wick_upper := bar.high - max bar.open_ bar.close
      if body > 0 ∧ wick_upper > body * 3 then (none, 0)
      else (some "SELL", bar.high)
  else if bar.low < swing_low - SWEEP_MIN_PIPS then
    let overshoot := swing_low - bar.low
    if overshoot > SWEEP_MAX_PIPS then (none, 0)
    else if bar.close ≤ swing_low then (none, 0)
    else
      let wick_lower := min bar.open_ bar.close - bar.low
      if body > 0 ∧ wick_lower > body * 3 then (none, 0)
      else (some "BUY", bar.low)
  else (none, 0)

/-! ## check_volume_filter (lines 457-472) -/

/-- `check_volume_filter(rates, lookback, mult)` reads only the length
and the `tick_volume` column of `rates`, so the embedding takes that
column (`vols`, same length as `rates`). -/
def check_volume_filter (vols : List ℚ) (lookback : ℕ) (mult : ℚ) : Bool × ℚ :=
  if vols.length < lookback + 1 then (true, 1)
  else
    let avg := npMean (takeLast lookback vols.dropLast)
    let latest := listLast vols
    if avg ≤ 0 then (true, 1)
    else (decide (mult ≤ latest / avg), latest / avg)

/-! ## DailyState (lines 167-176) and its mutators (lines 770-828) -/

/-- Dataclass `DailyState` (lines 167-176). -/
structure DailyState where
  date : String := ""
  entry_count : ℤ := 0
  consec_losses : ℤ := 0
  daily_risk_used : ℚ := 0
  day_start_equity : ℚ := 0
  halt : Bool := false
  halt_reason : String := ""
deriving DecidableEq

/-- `check_daily_reset()` (lines 770-785) with today's date string and
the account equity passed in instead of read from globals/MT5. -/
def check_daily_reset (s : DailyState) (today : String) (equity : ℚ) : DailyState :=
  if s.date = today then s
  else
    { date := today, entry_count := 0, consec_losses := 0, daily_risk_used := 0,
      day_start_equity := equity, halt := false, halt_reason := "" }

/-- `is_daily_halted()` (lines 787-806): returns the mutated state
plus the `(halted, reason)` pair.  `equity` stands for
`get_account_equity()` and `mt5_avail` for `MT5_AVAILABLE`. -/
def is_daily_halted (s : DailyState) (equity : ℚ) (mt5_avail : Bool) :
    DailyState × Bool × String :=
  if s.halt then (s, true, s.halt_reason)
  else if s.entry_count ≥ MAX_ENTRIES_PER_DAY then
    let s2 := { s with halt := true, halt_reason := "max_entries_per_day" }
    (s2, true, s2.halt_reason)
  else if s.consec_losses ≥ MAX_CONSEC_LOSSES then
    let s2 := { s with halt := true, halt_reason := "consec_losses" }
    (s2, true, s2.halt_reason)
  else if s.day_start_equity > 0 ∧ mt5_avail then
    let loss_pct := (s.day_start_equity - equity) / s.day_start_equity * 100
    if loss_pct ≥ DAILY_LOSS_CAP_PCT then
      let s2 := { s with halt := true, halt_reason := "daily_loss_cap" }
      (s2, true, s2.halt_reason)
    else (s, false, "")
  else (s, false, "")

/-- `on_entry_sent(risk_pct)` (lines 808-813). -/
def on_entry_sent (s : DailyState) (risk_pct : ℚ) : DailyState :=
  { s with entry_count := s.entry_count + 1,
           daily_risk_used := s.daily_risk_used + risk_pct }

/-- `on_trade_closed(profit)` (lines 815-828). -/
def on_trade_closed (s : DailyState) (profit : ℚ) : DailyState :=
  if profit < 0 then { s with consec_losses := s.consec_losses + 1 }
  else { s with consec_losses := 0 }

/-- One same-day step of the code that touches `DailyState`: a halt
check (Main Loop), a trade-close or entry notification (Risk Manager),
or a `check_daily_reset` call. -/
inductive DailyOp where
  | halted_check (equity : ℚ) (mt5_avail : Bool)
  | trade_closed (profit : ℚ)
  | entry_sent (risk_pct : ℚ)
  | daily_reset (today : String) (equity : ℚ)
deriving DecidableEq

/-- State effect of one `DailyOp`. -/
def applyDailyOp (s : DailyState) : DailyOp → DailyState
  | .halted_check equity mt5_avail => (is_daily_halted s equity mt5_avail).1
  | .trade_closed profit => on_trade_closed s profit
  | .entry_sent risk_pct => on_entry_sent s risk_pct
  | .daily_reset today equity => check_daily_reset s today equity

/-! ## Heartbeat receiver (lines 715-761), one message -/

/-- Dataclass `MT5HeartbeatState` (lines 178-187); the class constant
`STALE_WARN_SEC` is not part of the mutable state. -/
structure MT5HeartbeatState where
  last_recv_ts : ℚ := 0
  last_equity : ℚ := 0
  last_positions : ℤ := 0
  mt5_halt : Bool := false
  mt5_emg_system : String := ""
  stale_warned : Bool := false
deriving DecidableEq

/-- A decoded heartbeat JSON object.  Each field carries the
`data.get(...)` default used by the receiver; a missing
`daily_entries` key is the default `-1` (line 739). -/
structure HBPayload where
  equity : ℚ := 0
  positions : ℤ := 0
  halt : Bool := false
  emg_system : String := ""
  daily_entries : ℤ := -1
deriving DecidableEq

/-- Processing of one successfully decoded heartbeat message, lines
725-743 of `heartbeat_receiver_thread`: updates `g_hb` wholesale and
syncs `g_daily.entry_count` to the counterpart count when the payload
carries a nonnegative `daily_entries` differing from it. -/
def process_heartbeat_message (hb : MT5HeartbeatState) (daily : DailyState)
    (data : HBPayload) (now : ℚ) : MT5HeartbeatState × DailyState :=
  let hb2 : MT5HeartbeatState :=
    { last_recv_ts := now, last_equity := data.equity,
      last_positions := data.positions, mt5_halt := data.halt,
      mt5_emg_system := data.emg_system, stale_warned := false }
  let daily2 :=
    if data.daily_entries ≥ 0 ∧ daily.entry_count ≠ data.daily_entries then
      { daily with entry_count := data.daily_entries }
    else daily
  (hb2, daily2)

/-! ## MarketContext (lines 855-866) and ZoneResult (lines 1128-1135) -/

/-- Dataclass `MarketContext` (lines 855-866). -/
structure MarketContext where
  distance_atr_ratio : ℚ := 0
  direction_vs_sma : String := ""
  atr_to_spread : ℚ := 0
  volatility_ratio : ℚ := 1
  vol_state : String := "NORMAL"
  current_session : String := "A"
  atr_m5 : ℚ := 0
  atr_m15_raw : ℚ := 0
  sma20_m15 : ℚ := 0
deriving DecidableEq

/-- Dataclass `ZoneResult` (lines 1128-1135). -/
structure ZoneResult where
  confirmed_support : Bool := false
  confirmed_resist : Bool := false
  touching_zone : Bool := false
  zone_type : String := ""
  zone_price : ℚ := 0
  zone_strength : ℤ := 0
deriving DecidableEq

/-! ## AI GateKeeper (lines 1300-1528) -/

/-- Dataclass `GateResult` (lines 1303-1318). -/
structure GateResult where
  verdict : String := "SKIP"
  score : ℚ := 0
  multiplier : ℚ := 1
  reason : String := ""
  hard_reject : Bool := false
  lc_direction : String := "NEUTRAL"
  lc_conf : ℚ := 0
  qtrend_dir : String := "NEUTRAL"
  qtrend_str : String := "NORMAL"
  zone_support : Bool := false
  zone_resist : Bool := false
  osgfc_color : String := "NEUTRAL"
  ctx : MarketContext := {}
  m15_fvg_targets : List ℚ := []
deriving DecidableEq

/-- Steps 2 and 3 of `ai_gate_keeper` (lines 1378-1493) followed by the
clamp of step 4 (line 1498): the additive running score, base 0. -/
def gate_score (action : String) (ctx : MarketContext) (lc_dir : String) (lc_conf : ℚ)
    (qtrend_dir qtrend_str : String) (qtrend_changed : Bool) (zone : ZoneResult)
    (osgfc_color : String) (osgfc_changed : Bool) (fvg_m5_found : Bool)
    (m15_fvg_targets : List ℚ) (session_rank : String) : ℚ :=
  let score : ℚ := 0
  -- [TRAP] lines 1383-1395
  let score := if ctx.vol_state = "SQUEEZE" then score - 20 else score
  let score := if ctx.distance_atr_ratio ≥ DIST_OVERRIDE_THR then score - 15 else score
  let score := if 0 < ctx.atr_to_spread ∧ ctx.atr_to_spread < ATS_WARN_THR
               then score - 10 else score
  -- [A] Lorentzian Classification, lines 1405-1413
  let score := if lc_dir = action then score + (if lc_conf ≥ 3/4 then 25 else 15)
               else if lc_dir ≠ "NEUTRAL" ∧ lc_dir ≠ "" then score - 20
               else score
  -- [B] Q-Trend, lines 1420-1431
  let score := if qtrend_dir = action then
                 score + (if qtrend_str = "STRONG" then 30 else 15)
                   + (if qtrend_changed then 10 else 0)
               else if qtrend_dir ≠ "NEUTRAL" ∧ qtrend_dir ≠ "" then score - 25
               else score
  -- [C] confirmed zones, lines 1438-1449
  let score := if action = "BUY" ∧ zone.confirmed_support then score + 20
               else if action = "SELL" ∧ zone.confirmed_resist then score + 20
               else score
  let score := if action = "BUY" ∧ zone.confirmed_resist then score - 15 else score
  let score := if action = "SELL" ∧ zone.confirmed_support then score - 15 else score
  -- [D] zone touch, lines 1456-1462
  let score := if zone.touching_zone then
                 if (action = "BUY" ∧ zone.zone_type = "SUPPORT")
                     ∨ (action = "SELL" ∧ zone.zone_type = "RESIST")
                 then score + 5 else score - 10
               else score
  -- [E] FVG, lines 1466-1473
  let score := if m15_fvg_targets ≠ [] then score + 10 else score
  let score := if fvg_m5_found then score + 5 else score
  -- [F] OSGFC, lines 1479-1486
  let osgfc_match := (action = "BUY" ∧ osgfc_color = "GREEN")
      ∨ (action = "SELL" ∧ osgfc_color = "RED")
  let score := if osgfc_match then score + (if osgfc_changed then 15 else 10)
               else if osgfc_color ≠ "NEUTRAL" ∧ osgfc_color ≠ "" then score - 10
               else score
  -- [G] session rank table, lines 1489-1493 (adding 0 when sb = 0 is a no-op)
  let sb : ℚ := if session_rank = "S" then 10 else if session_rank = "A" then 0
                else if session_rank = "B" then -5
                else if session_rank = "INVALID" then -50 else 0
  let score := score + sb
  -- step 4 clamp, line 1498
  max (-100) (min 150 score)

/-- Score-to-multiplier tiers of step 4 (lines 1500-1505). -/
def gate_mult (score mtf_mult : ℚ) : ℚ :=
  if score ≥ GATE_STRONG_SCORE then mtf_mult * 1
  else if score ≥ GATE_MIN_SCORE then mtf_mult * (8/10)
  else 0

/-- `ai_gate_keeper(...)` (lines 1321-1528).  The three step-1 hard
rejects return immediately; otherwise the additive score and the
multiplier tier decide SKIP versus ENTER (steps 2-5). -/
def ai_gate_keeper (action : String) (ctx : MarketContext) (lc_dir : String) (lc_conf : ℚ)
    (qtrend_dir qtrend_str : String) (qtrend_changed : Bool) (zone : ZoneResult)
    (osgfc_color : String) (osgfc_changed : Bool) (fvg_m5_found : Bool)
    (m15_fvg_targets : List ℚ) (session_rank : String) (mtf_mult : ℚ) : GateResult :=
  let base : GateResult :=
    { verdict := "SKIP", score := 0, multiplier := 1, reason := "", hard_reject := false,
      lc_direction := lc_dir, lc_conf := lc_conf, qtrend_dir := qtrend_dir,
      qtrend_str := qtrend_str, zone_support := zone.confirmed_support,
      zone_resist := zone.confirmed_resist, osgfc_color := osgfc_color,
      ctx := ctx, m15_fvg_targets := m15_fvg_targets }
  -- step 1, lines 1354-1376
  if 0 < ctx.atr_to_spread ∧ ctx.atr_to_spread < ATS_HARD_REJECT then
    { base with verdict := "HARD_REJECT", hard_reject := true, reason := "EV_REJECT" }
  else if ctx.distance_atr_ratio ≥ DIST_HARD_REJECT then
    { base with verdict := "HARD_REJECT", hard_reject := true, reason := "DIST_REJECT" }
  else if ctx.vol_state = "PANIC" then
    { base with verdict := "HARD_REJECT", hard_reject := true, reason := "PANIC" }
  else
    let score := gate_score action ctx lc_dir lc_conf qtrend_dir qtrend_str
      qtrend_changed zone osgfc_color osgfc_changed fvg_m5_found m15_fvg_targets
      session_rank
    let mult := gate_mult score mtf_mult
    -- step 5, lines 1510-1517
    if mult ≤ 0 then { base with verdict := "SKIP", score := score }
    else { base with verdict := "ENTER", multiplier := mult, score := score }

/-! ## Lorentzian classification (lines 931-1052) -/

/-- `_calc_rsi(closes, period)` (lines 935-947). -/
def calc_rsi (closes : List ℚ) (period : ℕ) : ℚ :=
  if closes.length < period + 1 then 50
  else
    let delta := npDiff (takeLast (period + 1) closes)
    let gains := delta.map (fun d => if d > 0 then d else 0)
    let losses := delta.map (fun d => if d < 0 then -d else 0)
    let avg_g := npMean gains
    let avg_l := npMean losses
    if avg_l = 0 then 100
    else
      let rs := avg_g / avg_l
      100 - 100 / (1 + rs)

/-- `_calc_cci(highs, lows, closes, period)` (lines 949-960); the
result is the source's clamp of `(cci + 200) / 400` into `[0, 1]`. -/
def calc_cci (highs lows closes : List ℚ) (period : ℕ) : ℚ :=
  if closes.length < period then 1/2
  else
    let tp := List.zipWith (fun hl c => (hl.1 + hl.2 + c) / 3)
      (List.zip (takeLast period highs) (takeLast period lows)) (takeLast period closes)
    let tp_ma := npMean tp
    let md := npMean (tp.map (fun x => |x - tp_ma|))
    if md = 0 then 1/2
    else
      let cci := (listLast tp - tp_ma) / (3/200 * md)
      max 0 (min 1 ((cci + 200) / 400))

/-- `_calc_adx_approx(highs, lows, closes, period)` (lines 962-982). -/
def calc_adx_approx (highs lows closes : List ℚ) (period : ℕ) : ℚ :=
  if highs.length < period + 1 then 1/4
  else
    let dm_plus := (npDiff (takeLast (period + 1) highs)).map (fun d => max d 0)
    let dm_minus := (npDiff (takeLast (period + 1) lows)).map (fun d => max (-d) 0)
    let tr := List.zipWith (fun hl pc => max (hl.1 - hl.2) (max |hl.1 - pc| |hl.2 - pc|))
      (List.zip (takeLast period highs) (takeLast period lows))
      (takeLast period closes.dropLast)
    let atr := npMean tr
    if atr ≤ 0 then 1/4
    else
      let dip := npMean dm_plus / atr
      let dim := npMean dm_minus / atr
      let dx := |dip - dim| / (dip + dim + 1/1000000000)
      min 1 dx

/-- `_extract_lc_features(rates, idx)` (lines 984-996): the 4-feature
vector of bar `idx`, `none` when `idx < 25`. -/
def extract_lc_features (rates : List Bar) (idx : ℕ) : Option (ℚ × ℚ × ℚ × ℚ) :=
  if idx < 25 then none
  else
    let sl := rates.take (idx + 1)
    some (calc_rsi (closesOf sl) 14 / 100,
          calc_rsi (closesOf sl) 9 / 100,
          calc_cci (highsOf sl) (lowsOf sl) (closesOf sl) 20,
          calc_adx_approx (highsOf sl) (lowsOf sl) (closesOf sl) 14)

/-- Python `range(a, b, step)` over naturals for `step > 0` (the
source only uses it with nonnegative bounds). -/
def pyRange (a b step : ℕ) : List ℕ := List.range' a ((b - a + step - 1) / step) step

/-- Query index `n - 2` of `lorentzian_classify` (line 1008). -/
def lcQueryIdx (rates : List Bar) : ℕ := rates.length - 2

/-- Candidate neighbor indices of `lorentzian_classify` (lines
1015-1016): `range(max(25, qidx - LC_MAX_BARS_BK), qidx -
LC_MIN_BARS_BK, LC_MIN_BARS_BK)`. -/
def lcCandidateIdxs (rates : List Bar) : List ℕ :=
  let qidx := lcQueryIdx rates
  pyRange (max 25 (qidx - LC_MAX_BARS_BK)) (qidx - LC_MIN_BARS_BK) LC_MIN_BARS_BK

/-- The Lorentzian distance `sum(log1p(abs(q - f)))` of line 1020.
`log1p` is transcendental, so the embedding is parametric in the
scalar map `lg` standing for `x ↦ log(1 + x)`; every theorem below
holds for every `lg`, in particular for the source's `log1p`. -/
def lorentz_dist (lg : ℚ → ℚ) (q f : ℚ × ℚ × ℚ × ℚ) : ℚ :=
  lg |q.1 - f.1| + lg |q.2.1 - f.2.1| + lg |q.2.2.1 - f.2.2.1| + lg |q.2.2.2 - f.2.2.2|

/-- The `distances` list of `lorentzian_classify` (lines 1013-1021):
candidate `(distance, index)` pairs, skipping candidates without a
feature vector; empty when the query features are `none`. -/
def lcDistances (lg : ℚ → ℚ) (rates : List Bar) : List (ℚ × ℕ) :=
  match extract_lc_features rates (lcQueryIdx rates) with
  | none => []
  | some q =>
      (lcCandidateIdxs rates).filterMap fun i =>
        match extract_lc_features rates i with
        | none => none
        | some f => some (lorentz_dist lg q f, i)

/-- The `neighbors` list (lines 1026-1027): stable sort by distance,
then the first `LC_NEIGHBORS` entries (Python's `list.sort(key=...)`
is a stable sort, matched by `List.mergeSort`). -/
def lcNeighbors (lg : ℚ → ℚ) (rates : List Bar) : List (ℚ × ℕ) :=
  (List.mergeSort (lcDistances lg rates) (fun a b => decide (a.1 ≤ b.1))).take LC_NEIGHBORS

/-- The `(buy_votes, sell_votes)` loop (lines 1029-1040): a neighbor
votes by the sign of its own 4-bar forward return, and is skipped when
`idx + 4` would reach the query index. -/
def lcVotes (lg : ℚ → ℚ) (rates : List Bar) : ℕ × ℕ :=
  let qidx := lcQueryIdx rates
  (lcNeighbors lg rates).foldl
    (fun votes p =>
      let idx := p.2
      if qidx ≤ idx + 4 then votes
      else
        let future_ret := (rates.getD (idx + 4) {}).close - (rates.getD idx {}).close
        if future_ret > 0 then (votes.1 + 1, votes.2)
        else if future_ret < 0 then (votes.1, votes.2 + 1)
        else votes)
    (0, 0)

/-- `lorentzian_classify(rates_m5)` (lines 998-1052), parametric in
the `log1p` stand-in `lg`. -/
def lorentzian_classify (lg : ℚ → ℚ) (rates : List Bar) : String × ℚ :=
  let n := rates.length
  if n < 30 then ("NEUTRAL", 0)
  else
    match extract_lc_features rates (lcQueryIdx rates) with
    | none => ("NEUTRAL", 0)
    | some _ =>
        if lcDistances lg rates = [] then ("NEUTRAL", 0)
        else
          let votes := lcVotes lg rates
          let buy_votes := votes.1
          let sell_votes := votes.2
          let total := buy_votes + sell_votes
          if total = 0 then ("NEUTRAL", 0)
          else if buy_votes > sell_votes then ("BUY", (buy_votes : ℚ) / (total : ℚ))
          else if sell_votes > buy_votes then ("SELL", (sell_votes : ℚ) / (total : ℚ))
          else ("NEUTRAL", 1/2)

/-! ## Q-Trend (lines 1068-1106) and OSGFC (lines 1234-1252) -/

/-- `_ema(values, period)` (lines 1072-1080). -/
def ema_calc (values : List ℚ) (period : ℕ) : ℚ :=
  if values.length < period then npMean values
  else
    let k : ℚ := 2 / ((period : ℚ) + 1)
    (values.drop period).foldl (fun em v => v * k + em * (1 - k))
      (npMean (values.take period))

/-- `calc_qtrend(rates)` (lines 1082-1106): `(direction, strength,
changed)`. -/
def calc_qtrend (rates : List Bar) : String × String × Bool :=
  if rates.length < QTREND_SLOW_EMA + 5 then ("NEUTRAL", "NORMAL", false)
  else
    let closes := closesOf rates
    let ema_fast_now := ema_calc closes QTREND_FAST_EMA
    let ema_slow_now := ema_calc closes QTREND_SLOW_EMA
    let ema_fast_prev := ema_calc closes.dropLast QTREND_FAST_EMA
    let ema_slow_prev := ema_calc closes.dropLast QTREND_SLOW_EMA
    let direction := if ema_fast_now > ema_slow_now then "BUY"
                     else if ema_fast_now < ema_slow_now then "SELL" else "NEUTRAL"
    let prev_dir := if ema_fast_prev > ema_slow_prev then "BUY"
                    else if ema_fast_prev < ema_slow_prev then "SELL" else "NEUTRAL"
    let changed := direction ≠ prev_dir ∧ direction ≠ "NEUTRAL"
    let adx_val := calc_adx_approx (highsOf rates) (lowsOf rates) closes 14
    let strength := if adx_val ≥ QTREND_ADX_THR then "STRONG" else "NORMAL"
    (direction, strength, decide changed)

/-- `calc_osgfc(rates_m5)` (lines 1236-1252): `(color, changed)`. -/
def calc_osgfc (rates : List Bar) : String × Bool :=
  if rates.length < OSGFC_EMA_PERIOD + 2 then ("NEUTRAL", false)
  else
    let closes := closesOf rates
    let ema_now := ema_calc closes OSGFC_EMA_PERIOD
    let ema_prev := ema_calc closes.dropLast OSGFC_EMA_PERIOD
    let color_now := if listLast closes > ema_now then "GREEN" else "RED"
    let color_prev := if listLast closes.dropLast > ema_prev then "GREEN" else "RED"
    (color_now, decide (color_now ≠ color_prev))

/-! ## Zones detector (lines 1124-1220) -/

/-- The swing-extreme scan of `_find_swing_clusters` (lines
1141-1155): prices of bars that dominate the `ZONE_SWING_PERIOD` bars
on each side. -/
def swingPrices (rates : List Bar) (is_high : Bool) : List ℚ :=
  let n := rates.length
  let sw := ZONE_SWING_PERIOD
  (List.range n).filterMap fun i =>
    if i < sw ∨ n - sw ≤ i then none
    else
      let p := if is_high then (rates.getD i {}).high else (rates.getD i {}).low
      let before := (rates.drop (i - sw)).take sw
      let after := (rates.drop (i + 1)).take sw
      if is_high then
        if before.all (fun b => p ≥ b.high) ∧ after.all (fun b => p ≥ b.high)
        then some p else none
      else
        if before.all (fun b => p ≤ b.low) ∧ after.all (fun b => p ≤ b.low)
        then some p else none

/-- The clustering inner loop (lines 1163-1171): merge `p` into the
first cluster within `width` (running weighted average, touch count up
by one), else append a singleton cluster at the end. -/
def addToClusters (width : ℚ) : List (ℚ × ℕ) → ℚ → List (ℚ × ℕ)
  | [], p => [(p, 1)]
  | (cp, cnt) :: rest, p =>
      if |p - cp| ≤ width then ((cp * cnt + p) / ((cnt : ℚ) + 1), cnt + 1) :: rest
      else (cp, cnt) :: addToClusters width rest p

/-- `_find_swing_clusters(rates, atr, is_high)` (lines 1138-1173). -/
def find_swing_clusters (rates : List Bar) (atr : ℚ) (is_high : Bool) :
    List (ℚ × ℕ) :=
  let prices := swingPrices rates is_high
  if prices = [] then []
  else
    let width := atr * ZONE_WIDTH_FACTOR
    let clusters := (List.mergeSort prices (fun a b => decide (a ≤ b))).foldl
      (addToClusters width) []
    clusters.filter (fun c => ZONE_MIN_TOUCHES ≤ c.2)

/-- Best-cluster fold of lines 1196-1210: flag the side and keep the
cluster when no zone is recorded yet (`not result.zone_price`, i.e.
price 0) or this cluster has more touches. -/
def zoneScanFold (current zone_width : ℚ) (zone_type : String) (set_resist : Bool)
    (clusters : List (ℚ × ℕ)) (z0 : ZoneResult) : ZoneResult :=
  clusters.foldl
    (fun z c =>
      if |current - c.1| ≤ zone_width * 2 then
        let z := if set_resist then { z with confirmed_resist := true }
                 else { z with confirmed_support := true }
        if z.zone_price = 0 ∨ (c.2 : ℤ) > z.zone_strength then
          { z with zone_type := zone_type, zone_price := c.1,
                   zone_strength := (c.2 : ℤ) }
        else z
      else z)
    z0

/-- `detect_zones(rates_m5, rates_m15, atr_m5)` (lines 1176-1220). -/
def detect_zones (rates_m5 : List Bar) (rates_m15 : Option (List Bar))
    (atr_m5 : ℚ) : ZoneResult :=
  if atr_m5 ≤ 0 then {}
  else
    let m15_src : Option (List Bar) := match rates_m15 with
      | some r => if 30 ≤ r.length then some r else none
      | none => none
    let z1 : ZoneResult := match m15_src with
      | none => {}
      | some r =>
          let resist_clusters := find_swing_clusters r atr_m5 true
          let support_clusters := find_swing_clusters r atr_m5 false
          let current_m5 := (lastBar rates_m5).close
          let zone_width := atr_m5 * ZONE_WIDTH_FACTOR
          let z := zoneScanFold current_m5 zone_width "RESIST" true resist_clusters {}
          zoneScanFold current_m5 zone_width "SUPPORT" false support_clusters z
    if z1.zone_price > 0 then
      let bar_high := (lastBar rates_m5).high
      let bar_low := (lastBar rates_m5).low
      let half_w := atr_m5 * ZONE_WIDTH_FACTOR
      { z1 with touching_zone :=
          decide (bar_high ≥ z1.zone_price - half_w ∧ bar_low ≤ z1.zone_price + half_w) }
    else z1

/-! ## M15 FVG targets (lines 1264-1286) -/

/-- `find_m15_fvg_targets(rates_m15, action)` (lines 1264-1286):
up to 3 unfilled M15 FVG midpoints, deduplicated and ascending
(`sorted(set(targets))[:3]`). -/
def find_m15_fvg_targets (rates_m15 : Option (List Bar)) (action : String) : List ℚ :=
  match rates_m15 with
  | none => []
  | some r =>
      if r.length < M15_FVG_LOOKBACK + 2 then []
      else
        let window := takeLast M15_FVG_LOOKBACK r
        let targets := (List.range window.length).filterMap fun i =>
          if i < 2 then none
          else if action = "BUY" then
            if (window.getD (i - 2) {}).high < (window.getD i {}).low then
              some (((window.getD (i - 2) {}).high + (window.getD i {}).low) / 2)
            else none
          else
            if (window.getD (i - 2) {}).low > (window.getD i {}).high then
              some (((window.getD (i - 2) {}).low + (window.getD i {}).high) / 2)
            else none
        (List.mergeSort targets.dedup (fun a b => decide (a ≤ b))).take 3

/-! ## Market context (lines 869-910) -/

/-- `calc_market_context(rates_m5, rates_m15, spread, session_rank)`
(lines 869-910). -/
def calc_market_context (rates_m5 : List Bar) (rates_m15 : Option (List Bar))
    (spread : ℚ) (session_rank : String) : MarketContext :=
  let ctx0 : MarketContext := { current_session := session_rank }
  if rates_m5.length < 2 then ctx0
  else
    let atr_m5 := calc_atr rates_m5 14
    let ats := if spread > 0 ∧ atr_m5 > 0 then atr_m5 / spread else 0
    let vr := if ATR24H_BARS + 15 ≤ rates_m5.length then
                let atr_24h := calc_atr (takeLast ATR24H_BARS rates_m5) 14
                if atr_24h > 0 then atr_m5 / atr_24h else 1
              else 1
    let vs := if vr < VOL_SQUEEZE_THR then "SQUEEZE"
              else if vr ≥ VOL_PANIC_THR then "PANIC" else "NORMAL"
    match rates_m15 with
    | some r15 =>
        if SMA20_PERIOD ≤ r15.length then
          let atr_m15_raw := calc_atr r15 14
          let closes_m15 := closesOf r15
          let sma20 := npMean (takeLast SMA20_PERIOD closes_m15)
          let latest_close := listLast closes_m15
          let atr_base := if atr_m15_raw > 0 then atr_m15_raw else atr_m5
          let dist := if atr_base > 0 then |latest_close - sma20| / atr_base else 0
          { distance_atr_ratio := dist,
            direction_vs_sma := if latest_close ≥ sma20 then "above" else "below",
            atr_to_spread := ats, volatility_ratio := vr, vol_state := vs,
            current_session := session_rank, atr_m5 := atr_m5,
            atr_m15_raw := atr_m15_raw, sma20_m15 := sma20 }
        else
          { ctx0 with atr_m5 := atr_m5, atr_to_spread := ats,
                      volatility_ratio := vr, vol_state := vs }
    | none =>
        { ctx0 with atr_m5 := atr_m5, atr_to_spread := ats,
                    volatility_ratio := vr, vol_state := vs }

/-! ## TradingView snapshot and the hybrid resolver (lines 1667-1903) -/

/-- Dataclass `TVSignalCache` (lines 1667-1697). -/
structure TVSignalCache where
  recv_ts : ℚ := 0
  symbol : String := ""
  lc_direction : String := "NEUTRAL"
  lc_conf : ℚ := 0
  qtrend_dir : String := "NEUTRAL"
  qtrend_str : String := "NORMAL"
  qtrend_changed : Bool := false
  zone_type : String := ""
  zone_price : ℚ := 0
  zone_confirmed_support : Bool := false
  zone_confirmed_resist : Bool := false
  zone_touching : Bool := false
  zone_strength : ℤ := 0
  osgfc_color : String := "NEUTRAL"
  osgfc_changed : Bool := false
  distance_atr_ratio : ℚ := 0
  atr_to_spread : ℚ := 0
  volatility_ratio : ℚ := 1
  vol_state : String := "NORMAL"
  direction_vs_sma : String := ""
  sma20_m15 : ℚ := 0
  m15_fvg_targets : List ℚ := []
  source : String := "TV"
deriving DecidableEq

/-- `_is_tv_fresh(cache)` (lines 1700-1705) with `time.time()` passed
in as `now`. -/
def is_tv_fresh (cache : Option TVSignalCache) (now : ℚ) : Bool :=
  match cache with
  | none => false
  | some c => decide (now - c.recv_ts ≤ TV_SIGNAL_STALE_SEC)

/-- `_tv_cache_to_zone_result(c, atr_m5)` (lines 1747-1756); `atr_m5`
is unused in the source body as well. -/
def tv_cache_to_zone_result (c : TVSignalCache) (atr_m5 : ℚ) : ZoneResult :=
  { confirmed_support := c.zone_confirmed_support,
    confirmed_resist := c.zone_confirmed_resist,
    touching_zone := c.zone_touching,
    zone_type := c.zone_type,
    zone_price := c.zone_price,
    zone_strength := c.zone_strength }

/-- `_tv_cache_to_market_context(c, rates_m5, spread, session_rank)`
(lines 1759-1774).  Note `atr_m5` is always recomputed from the local
bars, and `atr_to_spread` is recomputed when the snapshot value is
nonpositive. -/
def tv_cache_to_market_context (c : TVSignalCache) (rates_m5 : List Bar)
    (spread : ℚ) (session_rank : String) : MarketContext :=
  { current_session := session_rank,
    distance_atr_ratio := c.distance_atr_ratio,
    atr_to_spread := if c.atr_to_spread > 0 then c.atr_to_spread
                     else if spread > 0 then calc_atr rates_m5 14 / spread else 0,
    volatility_ratio := c.volatility_ratio,
    vol_state := c.vol_state,
    direction_vs_sma := c.direction_vs_sma,
    sma20_m15 := c.sma20_m15,
    atr_m5 := calc_atr rates_m5 14 }

/-- The tuple returned by `resolve_hybrid_ai_inputs` (lines
1860-1861), as a record. -/
structure HybridInputs where
  ctx : MarketContext
  lc_dir : String
  lc_conf : ℚ
  qtrend_dir : String
  qtrend_str : String
  qtrend_changed : Bool
  zone : ZoneResult
  osgfc_color : String
  osgfc_changed : Bool
  m15_fvg_targets : List ℚ
  source_tag : String
deriving DecidableEq

/-- The TradingView branch of the resolver (lines 1867-1882). -/
def hybridFromTV (tv : TVSignalCache) (rates_m5 : List Bar) (spread atr_m5 : ℚ)
    (session_rank : String) : HybridInputs :=
  { ctx := tv_cache_to_market_context tv rates_m5 spread session_rank,
    lc_dir := tv.lc_direction, lc_conf := tv.lc_conf,
    qtrend_dir := tv.qtrend_dir, qtrend_str := tv.qtrend_str,
    qtrend_changed := tv.qtrend_changed,
    zone := tv_cache_to_zone_result tv atr_m5,
    osgfc_color := tv.osgfc_color, osgfc_changed := tv.osgfc_changed,
    m15_fvg_targets := tv.m15_fvg_targets,
    source_tag := "TV" }

/-- The MT5 fallback branch of the resolver (lines 1883-1903). -/
def hybridFromMT5 (lg : ℚ → ℚ) (rates_m5 : List Bar) (rates_m15 : Option (List Bar))
    (spread atr_m5 : ℚ) (action session_rank : String) : HybridInputs :=
  let lc := lorentzian_classify lg rates_m5
  let qt := calc_qtrend rates_m5
  let osgfc := calc_osgfc rates_m5
  { ctx := calc_market_context rates_m5 rates_m15 spread session_rank,
    lc_dir := lc.1, lc_conf := lc.2,
    qtrend_dir := qt.1, qtrend_str := qt.2.1, qtrend_changed := qt.2.2,
    zone := detect_zones rates_m5 rates_m15 atr_m5,
    osgfc_color := osgfc.1, osgfc_changed := osgfc.2,
    m15_fvg_targets := find_m15_fvg_targets rates_m15 action,
    source_tag := "MT5" }

/-- `resolve_hybrid_ai_inputs(...)` (lines 1845-1903): the freshness
test `_is_tv_fresh` picks the TradingView snapshot branch or the local
MT5 recomputation branch.  `tv_cache` is the locked snapshot of
`g_tv_cache` and `now` stands for `time.time()`. -/
def resolve_hybrid_ai_inputs (lg : ℚ → ℚ) (tv_cache : Option TVSignalCache) (now : ℚ)
    (rates_m5 : List Bar) (rates_m15 : Option (List Bar)) (spread atr_m5 : ℚ)
    (action session_rank : String) : HybridInputs :=
  match tv_cache with
  | some tv =>
      if now - tv.recv_ts ≤ TV_SIGNAL_STALE_SEC then
        hybridFromTV tv rates_m5 spread atr_m5 session_rank
      else hybridFromMT5 lg rates_m5 rates_m15 spread atr_m5 action session_rank
  | none => hybridFromMT5 lg rates_m5 rates_m15 spread atr_m5 action session_rank

/-! ## Concrete fixtures used by witnesses and counterexamples -/

/-- A flat bar used to build classifier fixtures. -/
def cb : Bar := { open_ := 100, high := 100, low := 100, close := 100, tick_volume := 1 }

/-- A bar closing one unit higher, used as the excursion bar. -/
def xb : Bar := { open_ := 100, high := 101, low := 100, close := 101, tick_volume := 1 }

/-- 36 bars, flat except a close excursion at index 29: enough history
for the classifier to form its two strided neighbor candidates
(indices 25 and 29); neighbor 25 sees a positive 4-bar forward return,
neighbor 29 a negative one, so the vote ties 1-1. -/
def tieBars36 : List Bar :=
  [cb, cb, cb, cb, cb, cb, cb, cb, cb, cb, cb, cb, cb, cb, cb, cb, cb, cb,
   cb, cb, cb, cb, cb, cb, cb, cb, cb, cb, cb, xb, cb, cb, cb, cb, cb, cb]

/-- A bar of range one, used to build a series with ATR exactly 1. -/
def aBar : Bar := { open_ := 100, high := 101, low := 100, close := 100, tick_volume := 1 }

/-- 16 bars with bar range 1, so `calc_atr _ 14 = 1`. -/
def atrBars16 : List Bar :=
  [aBar, aBar, aBar, aBar, aBar, aBar, aBar, aBar,
   aBar, aBar, aBar, aBar, aBar, aBar, aBar, aBar]

/-- A fresh-looking TradingView snapshot whose own `atr_to_spread` is
0, triggering the local fallback inside the snapshot branch. -/
def tvSnapshotZeroATS : TVSignalCache :=
  { recv_ts := 100, atr_to_spread := 0, lc_direction := "BUY" }

/-- Eleven zero volumes: enough bars for the volume filter, with a
degenerate (zero) trailing average. -/
def zeros11 : List ℚ := [0, 0, 0, 0, 0, 0, 0, 0, 0, 0, 0]

/-! ## C6: spread median convergence -/

/-- Value of one update when the median is below the observation. -/
theorem update_spread_med_of_lt (m x : ℚ) (h : m < x) :
    update_spread_med m x = m + SPREAD_MED_LR := by
  have hd : x - m > 0 := by linarith
  simp [update_spread_med, hd]

/-- Value of one update when the median is above the observation. -/
theorem update_spread_med_of_gt (m x : ℚ) (h : x < m) :
    update_spread_med m x = m - SPREAD_MED_LR := by
  have hd : ¬ x - m > 0 := by linarith
  have hd2 : x - m < 0 := by linarith
  simp [update_spread_med, hd, hd2]
  ring

/-- One update from at least one learning-rate step away moves the
median exactly `SPREAD_MED_LR` closer without crossing `x`. -/
theorem update_spread_med_step (m x : ℚ) (h : SPREAD_MED_LR ≤ |x - m|) :
    |x - update_spread_med m x| = |x - m| - SPREAD_MED_LR ∧
    (m ≤ x → update_spread_med m x ≤ x) ∧
    (x ≤ m → x ≤ update_spread_med m x) := by
  have hlr : (0 : ℚ) < SPREAD_MED_LR := by norm_num [SPREAD_MED_LR]
  rcases lt_trichotomy m x with hlt | heq | hgt
  · rw [update_spread_med_of_lt m x hlt]
    rw [abs_of_nonneg (by linarith : (0:ℚ) ≤ x - m)] at h ⊢
    have hle : m + SPREAD_MED_LR ≤ x := by linarith
    rw [abs_of_nonneg (by linarith : (0:ℚ) ≤ x - (m + SPREAD_MED_LR))]
    exact ⟨by ring, fun _ => hle, fun hxm => by linarith⟩
  · subst heq
    simp at h
    linarith
  · rw [update_spread_med_of_gt m x hgt]
    rw [abs_of_nonpos (by linarith : x - m ≤ 0)] at h
    have hle : x ≤ m - SPREAD_MED_LR := by linarith
    rw [abs_of_nonpos (by linarith : x - m ≤ 0),
        abs_of_nonpos (by linarith : x - (m - SPREAD_MED_LR) ≤ 0)]
    exact ⟨by ring, fun hmx => by linarith, fun _ => hle⟩

/-- C6 (amended).  Feeding the constant value `x` for `n` updates
moves the running median toward `x` by exactly `SPREAD_MED_LR` per
step, monotonically and without overshoot, as long as the starting
distance covers all `n` steps (`n * SPREAD_MED_LR ≤ |x - m|`).  The
original claim omitted that proviso: an update from strictly inside
one learning-rate step of `x` jumps past it
(`spread_med_overshoot_cx`). -/
theorem spread_med_monotone_convergence (m x : ℚ) (n : ℕ)
    (h : (n : ℚ) * SPREAD_MED_LR ≤ |x - m|) :
    |x - iterate_spread_med x n m| = |x - m| - (n : ℚ) * SPREAD_MED_LR ∧
    (m ≤ x → iterate_spread_med x n m ≤ x) ∧
    (x ≤ m → x ≤ iterate_spread_med x n m) := by
  induction n generalizing m with
  | zero => simp [iterate_spread_med]
  | succ k ih =>
      have hlr : (0 : ℚ) < SPREAD_MED_LR := by norm_num [SPREAD_MED_LR]
      have hk : (0 : ℚ) ≤ (k : ℚ) := by positivity
      have h1 : SPREAD_MED_LR ≤ |x - m| := by
        have : (1 : ℚ) * SPREAD_MED_LR ≤ ((k : ℚ) + 1) * SPREAD_MED_LR := by nlinarith
        push_cast at h
        linarith
      obtain ⟨hstep, hup, hdown⟩ := update_spread_med_step m x h1
      have hrec : (k : ℚ) * SPREAD_MED_LR ≤ |x - update_spread_med m x| := by
        rw [hstep]
        push_cast at h
        linarith
      obtain ⟨ih1, ih2, ih3⟩ := ih (update_spread_med m x) hrec
      refine ⟨?_, ?_, ?_⟩
      · show |x - iterate_spread_med x k (update_spread_med m x)| = _
        rw [ih1, hstep]
        push_cast
        ring
      · intro hmx
        exact ih2 (hup hmx)
      · intro hxm
        exact ih3 (hdown hxm)

/-- C6 counterexample: from median 0.20 a single update observing the
constant 0.21 jumps to 0.23, crossing the target and increasing the
distance — the claimed "never overshoots" fails. -/
theorem spread_med_overshoot_cx :
    update_spread_med (20/100) (21/100) = 23/100 ∧
    (21/100 : ℚ) < 23/100 ∧
    |(21/100 : ℚ) - 23/100| > |(21/100 : ℚ) - 20/100| := by
  refine ⟨?_, by norm_num, by rw [abs_of_nonpos (by norm_num), abs_of_nonneg (by norm_num)]; norm_num⟩
  norm_num [update_spread_med, SPREAD_MED_LR]

/-- Witness for `spread_med_monotone_convergence` at `m = 0`, `x = 1`,
`n = 3`. -/
theorem spread_med_monotone_convergence_witness :
    ((3 : ℕ) : ℚ) * SPREAD_MED_LR ≤ |(1 : ℚ) - 0| ∧
    |(1 : ℚ) - iterate_spread_med 1 3 0| = |(1 : ℚ) - 0| - ((3 : ℕ) : ℚ) * SPREAD_MED_LR ∧
    iterate_spread_med 1 3 0 ≤ 1 :=
  ⟨by norm_num [SPREAD_MED_LR],
   (spread_med_monotone_convergence 0 1 3 (by norm_num [SPREAD_MED_LR])).1,
   (spread_med_monotone_convergence 0 1 3 (by norm_num [SPREAD_MED_LR])).2.1 (by norm_num)⟩

/-! ## C10: volume filter degenerate inputs -/

/-- C10.  With fewer than `lookback + 1` bars, or with a nonpositive
trailing average volume, `check_volume_filter` passes with ratio 1:
insufficient or degenerate volume history never blocks a setup. -/
theorem check_volume_filter_degenerate (vols : List ℚ) (lookback : ℕ) (mult : ℚ)
    (h : vols.length < lookback + 1 ∨ npMean (takeLast lookback vols.dropLast) ≤ 0) :
    check_volume_filter vols lookback mult = (true, 1) := by
  by_cases hlen : vols.length < lookback + 1
  · simp [check_volume_filter, hlen]
  · rcases h with h | h
    · exact absurd h hlen
    · simp [check_volume_filter, hlen, h]

/-- Witness for `check_volume_filter_degenerate`: 11 bars of zero
volume at the source defaults `lookback = 10`, `mult = 1.3`. -/
theorem check_volume_filter_degenerate_witness :
    (zeros11.length < 10 + 1 ∨ npMean (takeLast 10 zeros11.dropLast) ≤ 0) ∧
    check_volume_filter zeros11 10 (13/10) = (true, 1) :=
  ⟨Or.inr (by norm_num [zeros11, npMean, takeLast]),
   check_volume_filter_degenerate zeros11 10 (13/10)
     (Or.inr (by norm_num [zeros11, npMean, takeLast]))⟩

/-! ## C5: heartbeat processing frame -/

/-- C5 (amended).  Processing one decoded heartbeat message rewrites
exactly the `MT5HeartbeatState` fields, and in `DailyState` can touch
only `entry_count` — which it syncs to the payload's `daily_entries`
(every other DailyState field is returned unchanged).  The original
claim that DailyState is left entirely unchanged fails
(`heartbeat_writes_daily_cx`). -/
theorem heartbeat_frame (hb : MT5HeartbeatState) (daily : DailyState)
    (data : HBPayload) (now : ℚ) :
    (process_heartbeat_message hb daily data now).2.date = daily.date ∧
    (process_heartbeat_message hb daily data now).2.consec_losses = daily.consec_losses ∧
    (process_heartbeat_message hb daily data now).2.daily_risk_used = daily.daily_risk_used ∧
    (process_heartbeat_message hb daily data now).2.day_start_equity = daily.day_start_equity ∧
    (process_heartbeat_message hb daily data now).2.halt = daily.halt ∧
    (process_heartbeat_message hb daily data now).2.halt_reason = daily.halt_reason ∧
    ((process_heartbeat_message hb daily data now).2.entry_count = daily.entry_count ∨
      (process_heartbeat_message hb daily data now).2.entry_count = data.daily_entries) ∧
    (process_heartbeat_message hb daily data now).1 =
      { last_recv_ts := now, last_equity := data.equity,
        last_positions := data.positions, mt5_halt := data.halt,
        mt5_emg_system := data.emg_system, stale_warned := false } := by
  unfold process_heartbeat_message
  by_cases h : data.daily_entries ≥ 0 ∧ daily.entry_count ≠ data.daily_entries
  · simp [h]
  · simp [h]

/-- C5 counterexample: a well-formed heartbeat payload carrying
`daily_entries = 2` changes `DailyState.entry_count` from 0 to 2 — the
heartbeat thread is a writer of DailyState. -/
theorem heartbeat_writes_daily_cx :
    (process_heartbeat_message {} {} { daily_entries := 2 } 100).2.entry_count = 2 ∧
    ({} : DailyState).entry_count = 0 ∧
    (process_heartbeat_message {} {} { daily_entries := 2 } 100).2 ≠ ({} : DailyState) := by
  refine ⟨by decide, by decide, ?_⟩
  intro h
  have := congrArg DailyState.entry_count h
  simp [process_heartbeat_message] at this

/-! ## C3: sweep rejection conditions -/

/-- C3 (amended).  `detect_sweep` reports no sweep when neither pool
is pierced beyond the minimum overshoot; when the pierced side
overshoots beyond the maximum; when the close fails to re-enter the
pool; and — only for bars with positive body — when the piercing wick
exceeds 3 times the body.  The original claim extended the wick
rejection to zero-body bars, which the code exempts
(`detect_sweep_zero_body_cx`). -/
theorem detect_sweep_rejects (bar : Bar) (sh sl atr : ℚ) :
    (¬ bar.high > sh + SWEEP_MIN_PIPS → ¬ bar.low < sl - SWEEP_MIN_PIPS →
        detect_sweep bar sh sl atr = (none, 0)) ∧
    (bar.high > sh + SWEEP_MIN_PIPS →
       (bar.high - sh > SWEEP_MAX_PIPS → detect_sweep bar sh sl atr = (none, 0)) ∧
       (bar.close ≥ sh → detect_sweep bar sh sl atr = (none, 0)) ∧
       (|bar.close - bar.open_| > 0 →
          bar.high - max bar.open_ bar.close > |bar.close - bar.open_| * 3 →
          detect_sweep bar sh sl atr = (none, 0))) ∧
    (¬ bar.high > sh + SWEEP_MIN_PIPS → bar.low < sl - SWEEP_MIN_PIPS →
       (sl - bar.low > SWEEP_MAX_PIPS → detect_sweep bar sh sl atr = (none, 0)) ∧
       (bar.close ≤ sl → detect_sweep bar sh sl atr = (none, 0)) ∧
       (|bar.close - bar.open_| > 0 →
          min bar.open_ bar.close - bar.low > |bar.close - bar.open_| * 3 →
          detect_sweep bar sh sl atr = (none, 0))) := by
  unfold detect_sweep
  refine ⟨fun h1 h2 => ?_, fun h1 => ⟨fun h2 => ?_, fun h2 => ?_, fun h2 h3 => ?_⟩,
          fun h1 h2 => ⟨fun h3 => ?_, fun h3 => ?_, fun h3 h4 => ?_⟩⟩ <;>
    simp only [if_neg, if_pos, *] <;>
    split_ifs <;> simp_all

/-- C3 counterexample: a zero-body bar (`open = close = 99.9`) pierces
the pool at 100 by 0.1 with a 0.2 wick — more than 3 times its zero
body — closes back inside, and is accepted as a SELL sweep instead of
rejected. -/
theorem detect_sweep_zero_body_cx :
    detect_sweep { open_ := 999/10, high := 1001/10, low := 998/10, close := 999/10 }
        100 0 1 = (some "SELL", 1001/10) ∧
    ((1001/10 : ℚ) - max (999/10) (999/10) > |(999/10 : ℚ) - 999/10| * 3) := by
  constructor
  · norm_num [detect_sweep, SWEEP_MIN_PIPS, SWEEP_MAX_PIPS]
  · norm_num

/-- Witness for `detect_sweep_rejects`: one bar per rejection branch
(no pierce; overshoot beyond the maximum; no reverse close; wick more
than 3 times a positive body). -/
theorem detect_sweep_rejects_witness :
    detect_sweep { open_ := 50, high := 50, low := 50, close := 50 } 100 0 1 = (none, 0) ∧
    detect_sweep { open_ := 100, high := 101, low := 99, close := 99 } 100 0 1 = (none, 0) ∧
    detect_sweep { open_ := 100, high := 1001/10, low := 99, close := 1001/10 } 100 0 1
      = (none, 0) ∧
    detect_sweep { open_ := 100, high := 1001/10, low := 99, close := 9999/100 } 100 0 1
      = (none, 0) :=
  ⟨(detect_sweep_rejects _ 100 0 1).1 (by norm_num [SWEEP_MIN_PIPS])
      (by norm_num [SWEEP_MIN_PIPS]),
   ((detect_sweep_rejects _ 100 0 1).2.1 (by norm_num [SWEEP_MIN_PIPS])).1
      (by norm_num [SWEEP_MAX_PIPS]),
   ((detect_sweep_rejects _ 100 0 1).2.1 (by norm_num [SWEEP_MIN_PIPS])).2.1
      (by norm_num),
   (((detect_sweep_rejects _ 100 0 1).2.1 (by norm_num [SWEEP_MIN_PIPS])).2.2
      (by norm_num [abs_of_nonpos]) (by norm_num [abs_of_nonpos]))⟩

/-! ## Gate keeper branch lemmas (shared) -/

/-- Branch lemma: the step-1 cost-efficiency hard reject (lines
1354-1359) returns the base result with only verdict, flag and reason
overwritten. -/
theorem ai_gate_keeper_hard_ev (action : String) (ctx : MarketContext) (lc_dir : String)
    (lc_conf : ℚ) (qtrend_dir qtrend_str : String) (qtrend_changed : Bool)
    (zone : ZoneResult) (osgfc_color : String) (osgfc_changed : Bool)
    (fvg_m5_found : Bool) (m15_fvg_targets : List ℚ) (session_rank : String)
    (mtf_mult : ℚ) (h0 : 0 < ctx.atr_to_spread) (h1 : ctx.atr_to_spread < ATS_HARD_REJECT) :
    ai_gate_keeper action ctx lc_dir lc_conf qtrend_dir qtrend_str qtrend_changed zone
        osgfc_color osgfc_changed fvg_m5_found m15_fvg_targets session_rank mtf_mult =
      { verdict := "HARD_REJECT", score := 0, multiplier := 1, reason := "EV_REJECT",
        hard_reject := true, lc_direction := lc_dir, lc_conf := lc_conf,
        qtrend_dir := qtrend_dir, qtrend_str := qtrend_str,
        zone_support := zone.confirmed_support, zone_resist := zone.confirmed_resist,
        osgfc_color := osgfc_color, ctx := ctx, m15_fvg_targets := m15_fvg_targets } := by
  unfold ai_gate_keeper
  rw [if_pos ⟨h0, h1⟩]

/-- Branch lemma: the step-1 over-extension hard reject (lines
1362-1368). -/
theorem ai_gate_keeper_hard_dist (action : String) (ctx : MarketContext) (lc_dir : String)
    (lc_conf : ℚ) (qtrend_dir qtrend_str : String) (qtrend_changed : Bool)
    (zone : ZoneResult) (osgfc_color : String) (osgfc_changed : Bool)
    (fvg_m5_found : Bool) (m15_fvg_targets : List ℚ) (session_rank : String)
    (mtf_mult : ℚ)
    (h1 : ¬ (0 < ctx.atr_to_spread ∧ ctx.atr_to_spread < ATS_HARD_REJECT))
    (h2 : ctx.distance_atr_ratio ≥ DIST_HARD_REJECT) :
    ai_gate_keeper action ctx lc_dir lc_conf qtrend_dir qtrend_str qtrend_changed zone
        osgfc_color osgfc_changed fvg_m5_found m15_fvg_targets session_rank mtf_mult =
      { verdict := "HARD_REJECT", score := 0, multiplier := 1, reason := "DIST_REJECT",
        hard_reject := true, lc_direction := lc_dir, lc_conf := lc_conf,
        qtrend_dir := qtrend_dir, qtrend_str := qtrend_str,
        zone_support := zone.confirmed_support, zone_resist := zone.confirmed_resist,
        osgfc_color := osgfc_color, ctx := ctx, m15_fvg_targets := m15_fvg_targets } := by
  unfold ai_gate_keeper
  rw [if_neg h1, if_pos h2]

/-- Branch lemma: the step-1 panic-regime hard reject (lines
1371-1376). -/
theorem ai_gate_keeper_hard_panic (action : String) (ctx : MarketContext) (lc_dir : String)
    (lc_conf : ℚ) (qtrend_dir qtrend_str : String) (qtrend_changed : Bool)
    (zone : ZoneResult) (osgfc_color : String) (osgfc_changed : Bool)
    (fvg_m5_found : Bool) (m15_fvg_targets : List ℚ) (session_rank : String)
    (mtf_mult : ℚ)
    (h1 : ¬ (0 < ctx.atr_to_spread ∧ ctx.atr_to_spread < ATS_HARD_REJECT))
    (h2 : ¬ (ctx.distance_atr_ratio ≥ DIST_HARD_REJECT))
    (h3 : ctx.vol_state = "PANIC") :
    ai_gate_keeper action ctx lc_dir lc_conf qtrend_dir qtrend_str qtrend_changed zone
        osgfc_color osgfc_changed fvg_m5_found m15_fvg_targets session_rank mtf_mult =
      { verdict := "HARD_REJECT", score := 0, multiplier := 1, reason := "PANIC",
        hard_reject := true, lc_direction := lc_dir, lc_conf := lc_conf,
        qtrend_dir := qtrend_dir, qtrend_str := qtrend_str,
        zone_support := zone.confirmed_support, zone_resist := zone.confirmed_resist,
        osgfc_color := osgfc_color, ctx := ctx, m15_fvg_targets := m15_fvg_targets } := by
  unfold ai_gate_keeper
  rw [if_neg h1, if_neg h2, if_pos h3]

/-- Branch lemma: past the three step-1 hard rejects, the result is
decided by the additive score and the multiplier tier (steps 2-5,
lines 1378-1517). -/
theorem ai_gate_keeper_scored (action : String) (ctx : MarketContext) (lc_dir : String)
    (lc_conf : ℚ) (qtrend_dir qtrend_str : String) (qtrend_changed : Bool)
    (zone : ZoneResult) (osgfc_color : String) (osgfc_changed : Bool)
    (fvg_m5_found : Bool) (m15_fvg_targets : List ℚ) (session_rank : String)
    (mtf_mult : ℚ)
    (h1 : ¬ (0 < ctx.atr_to_spread ∧ ctx.atr_to_spread < ATS_HARD_REJECT))
    (h2 : ¬ (ctx.distance_atr_ratio ≥ DIST_HARD_REJECT))
    (h3 : ¬ (ctx.vol_state = "PANIC")) :
    ai_gate_keeper action ctx lc_dir lc_conf qtrend_dir qtrend_str qtrend_changed zone
        osgfc_color osgfc_changed fvg_m5_found m15_fvg_targets session_rank mtf_mult =
      (if gate_mult (gate_score action ctx lc_dir lc_conf qtrend_dir qtrend_str
            qtrend_changed zone osgfc_color osgfc_changed fvg_m5_found m15_fvg_targets
            session_rank) mtf_mult ≤ 0 then
        { verdict := "SKIP",
          score := gate_score action ctx lc_dir lc_conf qtrend_dir qtrend_str
            qtrend_changed zone osgfc_color osgfc_changed fvg_m5_found m15_fvg_targets
            session_rank,
          multiplier := 1, reason := "", hard_reject := false, lc_direction := lc_dir,
          lc_conf := lc_conf, qtrend_dir := qtrend_dir, qtrend_str := qtrend_str,
          zone_support := zone.confirmed_support, zone_resist := zone.confirmed_resist,
          osgfc_color := osgfc_color, ctx := ctx, m15_fvg_targets := m15_fvg_targets }
      else
        { verdict := "ENTER",
          score := gate_score action ctx lc_dir lc_conf qtrend_dir qtrend_str
            qtrend_changed zone osgfc_color osgfc_changed fvg_m5_found m15_fvg_targets
            session_rank,
          multiplier := gate_mult (gate_score action ctx lc_dir lc_conf qtrend_dir
            qtrend_str qtrend_changed zone osgfc_color osgfc_changed fvg_m5_found
            m15_fvg_targets session_rank) mtf_mult,
          reason := "", hard_reject := false, lc_direction := lc_dir,
          lc_conf := lc_conf, qtrend_dir := qtrend_dir, qtrend_str := qtrend_str,
          zone_support := zone.confirmed_support, zone_resist := zone.confirmed_resist,
          osgfc_color := osgfc_color, ctx := ctx, m15_fvg_targets := m15_fvg_targets }) := by
  unfold ai_gate_keeper
  rw [if_neg h1, if_neg h2, if_neg h3]

/-! ## C1: gate keeper hard reject on cost efficiency -/

/-- C1 (amended).  For every MarketContext whose `atr_to_spread` is
strictly positive and strictly below the hard floor 10, and for all
values of every other gate input, `ai_gate_keeper` short-circuits in
step 1 with verdict HARD_REJECT, `hard_reject = true`, score 0, and
the multiplier field left at its dataclass default 1 (the hard-reject
path never writes it).  The original claim also covered nonpositive
`atr_to_spread` and promised multiplier 0; both fail
(`gate_hard_reject_cx`). -/
theorem gate_hard_reject_band (action : String) (ctx : MarketContext) (lc_dir : String)
    (lc_conf : ℚ) (qtrend_dir qtrend_str : String) (qtrend_changed : Bool)
    (zone : ZoneResult) (osgfc_color : String) (osgfc_changed : Bool)
    (fvg_m5_found : Bool) (m15_fvg_targets : List ℚ) (session_rank : String)
    (mtf_mult : ℚ) (h0 : 0 < ctx.atr_to_spread) (h1 : ctx.atr_to_spread < ATS_HARD_REJECT) :
    (ai_gate_keeper action ctx lc_dir lc_conf qtrend_dir qtrend_str qtrend_changed zone
        osgfc_color osgfc_changed fvg_m5_found m15_fvg_targets session_rank
        mtf_mult).verdict = "HARD_REJECT" ∧
    (ai_gate_keeper action ctx lc_dir lc_conf qtrend_dir qtrend_str qtrend_changed zone
        osgfc_color osgfc_changed fvg_m5_found m15_fvg_targets session_rank
        mtf_mult).hard_reject = true ∧
    (ai_gate_keeper action ctx lc_dir lc_conf qtrend_dir qtrend_str qtrend_changed zone
        osgfc_color osgfc_changed fvg_m5_found m15_fvg_targets session_rank
        mtf_mult).multiplier = 1 ∧
    (ai_gate_keeper action ctx lc_dir lc_conf qtrend_dir qtrend_str qtrend_changed zone
        osgfc_color osgfc_changed fvg_m5_found m15_fvg_targets session_rank
        mtf_mult).score = 0 := by
  rw [ai_gate_keeper_hard_ev action ctx lc_dir lc_conf qtrend_dir qtrend_str
    qtrend_changed zone osgfc_color osgfc_changed fvg_m5_found m15_fvg_targets
    session_rank mtf_mult h0 h1]
  exact ⟨rfl, rfl, rfl, rfl⟩

/-- C1 counterexample.  At `atr_to_spread = 0` — strictly below the
floor 10 — the gate does not hard-reject (the step-1 test demands a
strictly positive ratio) and returns SKIP; and at `atr_to_spread = 5`
the hard-rejecting gate returns multiplier 1, not 0. -/
theorem gate_hard_reject_cx :
    (ai_gate_keeper "BUY" { atr_to_spread := 0 } "NEUTRAL" 0 "NEUTRAL" "NORMAL" false {}
        "NEUTRAL" false false [] "A" 1).verdict = "SKIP" ∧
    (ai_gate_keeper "BUY" { atr_to_spread := 5 } "NEUTRAL" 0 "NEUTRAL" "NORMAL" false {}
        "NEUTRAL" false false [] "A" 1).verdict = "HARD_REJECT" ∧
    (ai_gate_keeper "BUY" { atr_to_spread := 5 } "NEUTRAL" 0 "NEUTRAL" "NORMAL" false {}
        "NEUTRAL" false false [] "A" 1).multiplier = 1 := by
  have hs : gate_score "BUY" { atr_to_spread := 0 } "NEUTRAL" 0 "NEUTRAL" "NORMAL"
      false {} "NEUTRAL" false false [] "A" = 0 := by
    have hd4 : ¬ (DIST_OVERRIDE_THR ≤ (0:ℚ)) := by norm_num [DIST_OVERRIDE_THR]
    simp [gate_score, hd4, min_def, max_def,
      show (("NORMAL":String) = "SQUEEZE") = False from by decide,
      show (("NEUTRAL":String) = "BUY") = False from by decide,
      show (("NEUTRAL":String) = "NEUTRAL") = True from by decide,
      show (("BUY":String) = "BUY") = True from by decide,
      show (("BUY":String) = "SELL") = False from by decide,
      show (("NEUTRAL":String) = "GREEN") = False from by decide,
      show (("NEUTRAL":String) = "RED") = False from by decide,
      show (("A":String) = "S") = False from by decide,
      show (("A":String) = "A") = True from by decide,
      show (("A":String) = "B") = False from by decide,
      show (("A":String) = "INVALID") = False from by decide] <;> norm_num
  have hm : gate_mult 0 1 = 0 := by
    norm_num [gate_mult, GATE_MIN_SCORE, GATE_STRONG_SCORE]
  have h1 : ¬ ((0:ℚ) < ({ atr_to_spread := 0 } : MarketContext).atr_to_spread ∧
      ({ atr_to_spread := 0 } : MarketContext).atr_to_spread < ATS_HARD_REJECT) := by
    norm_num
  have h2 : ¬ (({ atr_to_spread := 0 } : MarketContext).distance_atr_ratio ≥
      DIST_HARD_REJECT) := by norm_num [DIST_HARD_REJECT]
  have h3 : ¬ (({ atr_to_spread := 0 } : MarketContext).vol_state = "PANIC") := by decide
  refine ⟨?_, ?_, ?_⟩
  · rw [ai_gate_keeper_scored "BUY" { atr_to_spread := 0 } "NEUTRAL" 0 "NEUTRAL"
      "NORMAL" false {} "NEUTRAL" false false [] "A" 1 h1 h2 h3, hs, hm]
    norm_num
  · rw [ai_gate_keeper_hard_ev "BUY" { atr_to_spread := 5 } "NEUTRAL" 0 "NEUTRAL"
      "NORMAL" false {} "NEUTRAL" false false [] "A" 1 (by norm_num)
      (by norm_num [ATS_HARD_REJECT])]
  · rw [ai_gate_keeper_hard_ev "BUY" { atr_to_spread := 5 } "NEUTRAL" 0 "NEUTRAL"
      "NORMAL" false {} "NEUTRAL" false false [] "A" 1 (by norm_num)
      (by norm_num [ATS_HARD_REJECT])]

/-- Witness for `gate_hard_reject_band` at `atr_to_spread = 5`. -/
theorem gate_hard_reject_band_witness :
    (0 : ℚ) < 5 ∧ (5 : ℚ) < ATS_HARD_REJECT ∧
    (ai_gate_keeper "SELL" { atr_to_spread := 5 } "BUY" 1 "BUY" "STRONG" true {}
        "GREEN" true true [1] "S" 1).verdict = "HARD_REJECT" ∧
    (ai_gate_keeper "SELL" { atr_to_spread := 5 } "BUY" 1 "BUY" "STRONG" true {}
        "GREEN" true true [1] "S" 1).multiplier = 1 :=
  ⟨by norm_num, by norm_num [ATS_HARD_REJECT],
   (gate_hard_reject_band "SELL" { atr_to_spread := 5 } "BUY" 1 "BUY" "STRONG" true {}
      "GREEN" true true [1] "S" 1 (by norm_num) (by norm_num [ATS_HARD_REJECT])).1,
   (gate_hard_reject_band "SELL" { atr_to_spread := 5 } "BUY" 1 "BUY" "STRONG" true {}
      "GREEN" true true [1] "S" 1 (by norm_num) (by norm_num [ATS_HARD_REJECT])).2.2.1⟩

/-! ## C2: gate keeper multiplier versus verdict -/

/-- C2 (amended).  The `multiplier` field of a `GateResult` from
`ai_gate_keeper` is never 0: on ENTER it is the (positive) tier value,
and on SKIP or HARD_REJECT it is left at its dataclass default 1 (only
the ENTER branch writes the field).  The original
`multiplier = 0 ↔ verdict ≠ ENTER` invariant fails
(`gate_multiplier_cx`). -/
theorem gate_multiplier_never_zero (action : String) (ctx : MarketContext)
    (lc_dir : String) (lc_conf : ℚ) (qtrend_dir qtrend_str : String)
    (qtrend_changed : Bool) (zone : ZoneResult) (osgfc_color : String)
    (osgfc_changed : Bool) (fvg_m5_found : Bool) (m15_fvg_targets : List ℚ)
    (session_rank : String) (mtf_mult : ℚ) :
    ((ai_gate_keeper action ctx lc_dir lc_conf qtrend_dir qtrend_str qtrend_changed zone
        osgfc_color osgfc_changed fvg_m5_found m15_fvg_targets session_rank
        mtf_mult).verdict ≠ "ENTER" →
      (ai_gate_keeper action ctx lc_dir lc_conf qtrend_dir qtrend_str qtrend_changed zone
        osgfc_color osgfc_changed fvg_m5_found m15_fvg_targets session_rank
        mtf_mult).multiplier = 1) ∧
    ((ai_gate_keeper action ctx lc_dir lc_conf qtrend_dir qtrend_str qtrend_changed zone
        osgfc_color osgfc_changed fvg_m5_found m15_fvg_targets session_rank
        mtf_mult).verdict = "ENTER" →
      0 < (ai_gate_keeper action ctx lc_dir lc_conf qtrend_dir qtrend_str qtrend_changed
        zone osgfc_color osgfc_changed fvg_m5_found m15_fvg_targets session_rank
        mtf_mult).multiplier) ∧
    (ai_gate_keeper action ctx lc_dir lc_conf qtrend_dir qtrend_str qtrend_changed zone
        osgfc_color osgfc_changed fvg_m5_found m15_fvg_targets session_rank
        mtf_mult).multiplier ≠ 0 := by
  by_cases h1 : 0 < ctx.atr_to_spread ∧ ctx.atr_to_spread < ATS_HARD_REJECT
  · rw [ai_gate_keeper_hard_ev action ctx lc_dir lc_conf qtrend_dir qtrend_str
      qtrend_changed zone osgfc_color osgfc_changed fvg_m5_found m15_fvg_targets
      session_rank mtf_mult h1.1 h1.2]
    exact ⟨fun _ => rfl, fun h => by simp at h, one_ne_zero⟩
  · by_cases h2 : ctx.distance_atr_ratio ≥ DIST_HARD_REJECT
    · rw [ai_gate_keeper_hard_dist action ctx lc_dir lc_conf qtrend_dir qtrend_str
        qtrend_changed zone osgfc_color osgfc_changed fvg_m5_found m15_fvg_targets
        session_rank mtf_mult h1 h2]
      exact ⟨fun _ => rfl, fun h => by simp at h, one_ne_zero⟩
    · by_cases h3 : ctx.vol_state = "PANIC"
      · rw [ai_gate_keeper_hard_panic action ctx lc_dir lc_conf qtrend_dir qtrend_str
          qtrend_changed zone osgfc_color osgfc_changed fvg_m5_found m15_fvg_targets
          session_rank mtf_mult h1 h2 h3]
        exact ⟨fun _ => rfl, fun h => by simp at h, one_ne_zero⟩
      · rw [ai_gate_keeper_scored action ctx lc_dir lc_conf qtrend_dir qtrend_str
          qtrend_changed zone osgfc_color osgfc_changed fvg_m5_found m15_fvg_targets
          session_rank mtf_mult h1 h2 h3]
        by_cases h4 : gate_mult (gate_score action ctx lc_dir lc_conf qtrend_dir
          qtrend_str qtrend_changed zone osgfc_color osgfc_changed fvg_m5_found
          m15_fvg_targets session_rank) mtf_mult ≤ 0
        · rw [if_pos h4]
          exact ⟨fun _ => rfl, fun h => by simp at h, one_ne_zero⟩
        · rw [if_neg h4]
          have hpos := lt_of_not_le h4
          exact ⟨fun h => absurd rfl h, fun _ => hpos, ne_of_gt hpos⟩

/-- C2 counterexample: a hard-rejected evaluation (`atr_to_spread =
7`) has verdict HARD_REJECT ≠ ENTER yet multiplier 1, not 0. -/
theorem gate_multiplier_cx :
    (ai_gate_keeper "SELL" { atr_to_spread := 7 } "NEUTRAL" 0 "NEUTRAL" "NORMAL" false {}
        "NEUTRAL" false false [] "A" 1).verdict = "HARD_REJECT" ∧
    (ai_gate_keeper "SELL" { atr_to_spread := 7 } "NEUTRAL" 0 "NEUTRAL" "NORMAL" false {}
        "NEUTRAL" false false [] "A" 1).multiplier = 1 := by
  rw [ai_gate_keeper_hard_ev "SELL" { atr_to_spread := 7 } "NEUTRAL" 0 "NEUTRAL"
    "NORMAL" false {} "NEUTRAL" false false [] "A" 1 (by norm_num)
    (by norm_num [ATS_HARD_REJECT])]
  exact ⟨rfl, rfl⟩

/-- Witness for `gate_multiplier_never_zero` on a hard-rejected
evaluation. -/
theorem gate_multiplier_never_zero_witness :
    (ai_gate_keeper "BUY" { atr_to_spread := 3 } "NEUTRAL" 0 "NEUTRAL" "NORMAL" false {}
        "NEUTRAL" false false [] "A" 1).verdict ≠ "ENTER" ∧
    (ai_gate_keeper "BUY" { atr_to_spread := 3 } "NEUTRAL" 0 "NEUTRAL" "NORMAL" false {}
        "NEUTRAL" false false [] "A" 1).multiplier = 1 :=
  ⟨by
    rw [ai_gate_keeper_hard_ev "BUY" { atr_to_spread := 3 } "NEUTRAL" 0 "NEUTRAL"
      "NORMAL" false {} "NEUTRAL" false false [] "A" 1 (by norm_num)
      (by norm_num [ATS_HARD_REJECT])]
    simp,
   (gate_multiplier_never_zero "BUY" { atr_to_spread := 3 } "NEUTRAL" 0 "NEUTRAL"
      "NORMAL" false {} "NEUTRAL" false false [] "A" 1).1
     (by
       rw [ai_gate_keeper_hard_ev "BUY" { atr_to_spread := 3 } "NEUTRAL" 0 "NEUTRAL"
         "NORMAL" false {} "NEUTRAL" false false [] "A" 1 (by norm_num)
         (by norm_num [ATS_HARD_REJECT])]
       simp)⟩

/-! ## C7: daily halt stickiness -/

/-- When the sticky flag is already set, the halt check returns the
state unchanged and reports halted. -/
theorem is_daily_halted_of_halt (s : DailyState) (equity : ℚ) (mt5_avail : Bool)
    (h : s.halt = true) :
    is_daily_halted s equity mt5_avail = (s, true, s.halt_reason) := by
  unfold is_daily_halted
  rw [if_pos h]

/-- One same-day `DailyOp` preserves a set halt flag and never changes
the date. -/
theorem applyDailyOp_halt (s : DailyState) (op : DailyOp) (h : s.halt = true)
    (hop : ∀ t e, op = DailyOp.daily_reset t e → t = s.date) :
    (applyDailyOp s op).halt = true ∧ (applyDailyOp s op).date = s.date := by
  cases op with
  | halted_check equity mt5_avail =>
      simp only [applyDailyOp]
      rw [is_daily_halted_of_halt s equity mt5_avail h]
      exact ⟨h, rfl⟩
  | trade_closed profit =>
      simp only [applyDailyOp, on_trade_closed]
      split_ifs <;> exact ⟨h, rfl⟩
  | entry_sent risk_pct =>
      exact ⟨h, rfl⟩
  | daily_reset today equity =>
      have ht : today = s.date := hop today equity rfl
      simp only [applyDailyOp, check_daily_reset]
      rw [if_pos ht.symm]
      exact ⟨h, rfl⟩

/-- C7.  Within one calendar day (every reset op in the trace carries
the state's own date, so no rollover happens), once `halt` is true it
stays true across any sequence of halt checks, trade closes and entry
notifications — even though `on_trade_closed` resets `consec_losses`
to 0 after a win — and every subsequent `is_daily_halted` check still
reports halted. -/
theorem daily_halt_sticky (ops : List DailyOp) (s : DailyState) (h : s.halt = true)
    (hops : ∀ op ∈ ops, ∀ t e, op = DailyOp.daily_reset t e → t = s.date) :
    (ops.foldl applyDailyOp s).halt = true ∧
    (ops.foldl applyDailyOp s).date = s.date ∧
    ∀ equity mt5_avail,
      (is_daily_halted (ops.foldl applyDailyOp s) equity mt5_avail).2.1 = true := by
  induction ops generalizing s with
  | nil =>
      refine ⟨h, rfl, fun equity mt5_avail => ?_⟩
      simp only [List.foldl_nil]
      rw [is_daily_halted_of_halt s equity mt5_avail h]
  | cons op ops ih =>
      have hop : ∀ t e, op = DailyOp.daily_reset t e → t = s.date :=
        hops op (List.mem_cons_self op ops)
      obtain ⟨h2, hdate⟩ := applyDailyOp_halt s op h hop
      have hops2 : ∀ op2 ∈ ops, ∀ t e, op2 = DailyOp.daily_reset t e →
          t = (applyDailyOp s op).date := by
        intro op2 hmem t e heq
        rw [hdate]
        exact hops op2 (List.mem_cons_of_mem op hmem) t e heq
      obtain ⟨ih1, ih2, ih3⟩ := ih (applyDailyOp s op) h2 hops2
      exact ⟨ih1, by rw [List.foldl_cons, ih2, hdate], ih3⟩

/-- Witness for `daily_halt_sticky`: a halted day sees a winning trade
(which resets `consec_losses`) followed by a halt check; the halt
flag survives and the check still reports halted. -/
theorem daily_halt_sticky_witness :
    ({ date := "2026-10-12", consec_losses := 3, halt := true,
       halt_reason := "consec_losses" } : DailyState).halt = true ∧
    ([DailyOp.trade_closed 5, DailyOp.halted_check 1000 true].foldl applyDailyOp
      { date := "2026-10-12", consec_losses := 3, halt := true,
        halt_reason := "consec_losses" }).halt = true ∧
    (is_daily_halted
      ([DailyOp.trade_closed 5, DailyOp.halted_check 1000 true].foldl applyDailyOp
        { date := "2026-10-12", consec_losses := 3, halt := true,
          halt_reason := "consec_losses" }) 1000 true).2.1 = true :=
  have hops : ∀ op ∈ [DailyOp.trade_closed (5:ℚ), DailyOp.halted_check 1000 true],
      ∀ t e, op = DailyOp.daily_reset t e →
        t = ({ date := "2026-10-12", consec_losses := 3, halt := true,
               halt_reason := "consec_losses" } : DailyState).date := by
    intro op hmem t e heq
    rcases List.mem_cons.1 hmem with h | h
    · rw [h] at heq; cases heq
    · rcases List.mem_cons.1 h with h2 | h2
      · rw [h2] at heq; cases heq
      · cases h2
  ⟨rfl,
   (daily_halt_sticky [DailyOp.trade_closed 5, DailyOp.halted_check 1000 true]
     { date := "2026-10-12", consec_losses := 3, halt := true,
       halt_reason := "consec_losses" } rfl hops).1,
   (daily_halt_sticky [DailyOp.trade_closed 5, DailyOp.halted_check 1000 true]
     { date := "2026-10-12", consec_losses := 3, halt := true,
       halt_reason := "consec_losses" } rfl hops).2.2 1000 true⟩

/-! ## Classifier helper lemmas (shared) -/

/-- An empty Python range when the stop does not exceed the start. -/
theorem pyRange_eq_nil (a b step : ℕ) (hs : 0 < step) (h : b ≤ a) :
    pyRange a b step = [] := by
  unfold pyRange
  rw [Nat.div_eq_of_lt (by omega)]
  rfl

/-- Members of a stride-4 Python range lie in `[a, b)`. -/
theorem pyRange4_mem_lt (a b i : ℕ) (hi : i ∈ pyRange a b 4) : a ≤ i ∧ i < b := by
  unfold pyRange at hi
  rw [List.mem_range'] at hi
  obtain ⟨j, hj, rfl⟩ := hi
  have h2 : ((b - a + 4 - 1) / 4) * 4 ≤ b - a + 4 - 1 := Nat.div_mul_le_self _ _
  omega

/-- Every candidate neighbor index is at least 25 and stops a full
forward horizon short of the query index. -/
theorem lcCandidateIdxs_lt (rates : List Bar) (i : ℕ) (hi : i ∈ lcCandidateIdxs rates) :
    25 ≤ i ∧ i + 4 < lcQueryIdx rates := by
  simp only [lcCandidateIdxs, lcQueryIdx, LC_MIN_BARS_BK, LC_MAX_BARS_BK] at hi
  have := pyRange4_mem_lt _ _ _ hi
  simp only [lcQueryIdx]
  omega

/-- Too little history leaves no candidate index. -/
theorem lcCandidateIdxs_small (rates : List Bar) (h : rates.length < 30) :
    lcCandidateIdxs rates = [] := by
  unfold lcCandidateIdxs lcQueryIdx
  apply pyRange_eq_nil
  · norm_num [LC_MIN_BARS_BK]
  · simp only [LC_MIN_BARS_BK, LC_MAX_BARS_BK]
    omega

/-- Every distance entry's index is a candidate index. -/
theorem lcDistances_mem (lg : ℚ → ℚ) (rates : List Bar) (p : ℚ × ℕ)
    (hp : p ∈ lcDistances lg rates) : p.2 ∈ lcCandidateIdxs rates := by
  unfold lcDistances at hp
  cases hE : extract_lc_features rates (lcQueryIdx rates) with
  | none => rw [hE] at hp; simp at hp
  | some q =>
      rw [hE] at hp
      rw [List.mem_filterMap] at hp
      obtain ⟨i, hi, heq⟩ := hp
      cases hE2 : extract_lc_features rates i with
      | none => rw [hE2] at heq; simp at heq
      | some f =>
          rw [hE2] at heq
          simp only [Option.some.injEq] at heq
          rw [← heq]
          exact hi

/-- Every selected neighbor is a distance entry. -/
theorem lcNeighbors_mem (lg : ℚ → ℚ) (rates : List Bar) (p : ℚ × ℕ)
    (hp : p ∈ lcNeighbors lg rates) : p ∈ lcDistances lg rates := by
  unfold lcNeighbors at hp
  have h2 := List.mem_of_mem_take hp
  rwa [List.mem_mergeSort] at h2

/-- Too little history means no distances. -/
theorem lcDistances_small (lg : ℚ → ℚ) (rates : List Bar) (h : rates.length < 30) :
    lcDistances lg rates = [] := by
  unfold lcDistances
  cases hE : extract_lc_features rates (lcQueryIdx rates) with
  | none => simp
  | some q => simp [lcCandidateIdxs_small rates h]

/-- No distances means no votes. -/
theorem lcVotes_nil (lg : ℚ → ℚ) (rates : List Bar) (h : lcDistances lg rates = []) :
    lcVotes lg rates = (0, 0) := by
  unfold lcVotes lcNeighbors
  rw [h]
  simp

/-- Evaluation lemma: with enough history and a nonempty distance
list, the classifier verdict is exactly the vote decision of lines
1042-1052. -/
theorem lorentzian_classify_votes (lg : ℚ → ℚ) (rates : List Bar)
    (hn : ¬ rates.length < 30) (hd : ¬ lcDistances lg rates = []) :
    lorentzian_classify lg rates =
      (if (lcVotes lg rates).1 + (lcVotes lg rates).2 = 0 then ("NEUTRAL", 0)
       else if (lcVotes lg rates).1 > (lcVotes lg rates).2 then
         ("BUY", ((lcVotes lg rates).1 : ℚ) /
           (((lcVotes lg rates).1 + (lcVotes lg rates).2 : ℕ) : ℚ))
       else if (lcVotes lg rates).2 > (lcVotes lg rates).1 then
         ("SELL", ((lcVotes lg rates).2 : ℚ) /
           (((lcVotes lg rates).1 + (lcVotes lg rates).2 : ℕ) : ℚ))
       else ("NEUTRAL", 1/2)) := by
  unfold lorentzian_classify
  rw [if_neg hn]
  have hq : ¬ (lcQueryIdx rates < 25) := by
    unfold lcQueryIdx
    omega
  obtain ⟨q, hE⟩ : ∃ q, extract_lc_features rates (lcQueryIdx rates) = some q := by
    unfold extract_lc_features
    rw [if_neg hq]
    exact ⟨_, rfl⟩
  rw [hE]
  simp only [if_neg hd]

/-! ## Evaluation of the tie fixture (shared) -/

/-- On the tie fixture with the constant-zero distance stand-in, the
distance list is the two candidates at distance 0. -/
theorem lcDistances_tie :
    lcDistances (fun _ => (0:ℚ)) tieBars36 = [((0:ℚ), 25), ((0:ℚ), 29)] := by
  obtain ⟨q, hE⟩ : ∃ q, extract_lc_features tieBars36 (lcQueryIdx tieBars36) = some q := by
    unfold extract_lc_features
    rw [if_neg (by norm_num [lcQueryIdx, show tieBars36.length = 36 from rfl])]
    exact ⟨_, rfl⟩
  obtain ⟨f25, hE25⟩ : ∃ f, extract_lc_features tieBars36 25 = some f := by
    unfold extract_lc_features
    rw [if_neg (by norm_num)]
    exact ⟨_, rfl⟩
  obtain ⟨f29, hE29⟩ : ∃ f, extract_lc_features tieBars36 29 = some f := by
    unfold extract_lc_features
    rw [if_neg (by norm_num)]
    exact ⟨_, rfl⟩
  unfold lcDistances
  rw [hE, show lcCandidateIdxs tieBars36 = [25, 29] from by decide]
  simp [hE25, hE29, lorentz_dist]

/-- Both tie-fixture candidates are kept as neighbors (two entries,
fewer than `LC_NEIGHBORS`). -/
theorem lcNeighbors_tie :
    lcNeighbors (fun _ => (0:ℚ)) tieBars36 = [((0:ℚ), 25), ((0:ℚ), 29)] := by
  unfold lcNeighbors
  rw [lcDistances_tie]
  rw [List.mergeSort_of_sorted (by simp)]
  rfl

/-- The tie fixture votes 1 BUY and 1 SELL. -/
theorem lcVotes_tie : lcVotes (fun _ => (0:ℚ)) tieBars36 = (1, 1) := by
  unfold lcVotes
  rw [lcNeighbors_tie]
  simp only [List.foldl_cons, List.foldl_nil, lcQueryIdx,
    show tieBars36.length = 36 from rfl]
  norm_num [List.getD, show tieBars36[29]? = some xb from rfl,
    show tieBars36[25]? = some cb from rfl,
    show tieBars36[33]? = some cb from rfl, cb, xb]

/-! ## C8: no-match classification -/

/-- C8 (amended).  `lorentzian_classify` returns NEUTRAL with
confidence 0 when the vote set is empty, and NEUTRAL with confidence
0.5 — not 0 — when the buy and sell vote counts tie at a nonzero
total.  The original claim's "tie yields NEUTRAL/0" fails
(`lc_tie_half_cx`). -/
theorem lc_no_match (lg : ℚ → ℚ) (rates : List Bar) :
    ((lcVotes lg rates).1 + (lcVotes lg rates).2 = 0 →
        lorentzian_classify lg rates = ("NEUTRAL", 0)) ∧
    ((lcVotes lg rates).1 = (lcVotes lg rates).2 → (lcVotes lg rates).1 ≠ 0 →
        lorentzian_classify lg rates = ("NEUTRAL", 1/2)) := by
  by_cases hn : rates.length < 30
  · have hz : lcVotes lg rates = (0, 0) :=
      lcVotes_nil lg rates (lcDistances_small lg rates hn)
    constructor
    · intro _
      unfold lorentzian_classify
      rw [if_pos hn]
    · intro _ hne
      rw [hz] at hne
      simp at hne
  · by_cases hd : lcDistances lg rates = []
    · have hz : lcVotes lg rates = (0, 0) := lcVotes_nil lg rates hd
      constructor
      · intro _
        unfold lorentzian_classify
        rw [if_neg hn]
        obtain ⟨q, hE⟩ : ∃ q, extract_lc_features rates (lcQueryIdx rates) = some q := by
          unfold extract_lc_features
          rw [if_neg (by unfold lcQueryIdx; omega)]
          exact ⟨_, rfl⟩
        rw [hE]
        simp only [if_pos hd]
      · intro _ hne
        rw [hz] at hne
        simp at hne
    · rw [lorentzian_classify_votes lg rates hn hd]
      constructor
      · intro h0
        rw [if_pos h0]
      · intro heq hne
        rw [if_neg (by omega), if_neg (by omega), if_neg (by omega)]

/-- C8 counterexample: on the tie fixture the votes tie 1-1 yet the
classifier returns confidence 1/2, not 0.  (With only two candidate
neighbors — fewer than `LC_NEIGHBORS` — the result does not depend on
the distance map, so the constant-zero stand-in is faithful.) -/
theorem lc_tie_half_cx :
    (lcVotes (fun _ => (0:ℚ)) tieBars36).1 = 1 ∧
    (lcVotes (fun _ => (0:ℚ)) tieBars36).2 = 1 ∧
    lorentzian_classify (fun _ => (0:ℚ)) tieBars36 = ("NEUTRAL", 1/2) := by
  refine ⟨by rw [lcVotes_tie], by rw [lcVotes_tie], ?_⟩
  rw [lorentzian_classify_votes (fun _ => (0:ℚ)) tieBars36
    (by norm_num [show tieBars36.length = 36 from rfl])
    (by rw [lcDistances_tie]; simp), lcVotes_tie]
  norm_num

/-- Witness for `lc_no_match`: the empty series has no votes and
classifies NEUTRAL/0; the tie fixture classifies NEUTRAL/0.5. -/
theorem lc_no_match_witness :
    ((lcVotes (fun _ => (0:ℚ)) []).1 + (lcVotes (fun _ => (0:ℚ)) []).2 = 0 ∧
      lorentzian_classify (fun _ => (0:ℚ)) [] = ("NEUTRAL", 0)) ∧
    ((lcVotes (fun _ => (0:ℚ)) tieBars36).1 = (lcVotes (fun _ => (0:ℚ)) tieBars36).2 ∧
      lorentzian_classify (fun _ => (0:ℚ)) tieBars36 = ("NEUTRAL", 1/2)) :=
  have hz : lcVotes (fun _ => (0:ℚ)) ([] : List Bar) = (0, 0) :=
    lcVotes_nil _ _ (lcDistances_small _ _ (by simp))
  ⟨⟨by simp [hz], (lc_no_match (fun _ => (0:ℚ)) []).1 (by simp [hz])⟩,
   ⟨by rw [lcVotes_tie],
    (lc_no_match (fun _ => (0:ℚ)) tieBars36).2 (by rw [lcVotes_tie])
      (by rw [lcVotes_tie]; norm_num)⟩⟩

/-! ## C9: classifier no-lookahead -/

/-- C9.  Every candidate neighbor index is strictly older than the
query index, and — already from the range bound, independent of the
in-loop guard — every selected neighbor satisfies index + 4 strictly
below the query index, so no neighbor label reads data at or after the
query bar. -/
theorem lc_no_lookahead (lg : ℚ → ℚ) (rates : List Bar) :
    (∀ i ∈ lcCandidateIdxs rates, i < lcQueryIdx rates ∧ i + 4 < lcQueryIdx rates) ∧
    (∀ p ∈ lcNeighbors lg rates, p.2 < lcQueryIdx rates ∧ p.2 + 4 < lcQueryIdx rates) := by
  constructor
  · intro i hi
    have := lcCandidateIdxs_lt rates i hi
    omega
  · intro p hp
    have := lcCandidateIdxs_lt rates p.2
      (lcDistances_mem lg rates p (lcNeighbors_mem lg rates p hp))
    omega

/-- Witness for `lc_no_lookahead` on the tie fixture: neighbor index
25 with query index 34. -/
theorem lc_no_lookahead_witness :
    ((0:ℚ), 25) ∈ lcNeighbors (fun _ => (0:ℚ)) tieBars36 ∧
    25 < lcQueryIdx tieBars36 ∧ 25 + 4 < lcQueryIdx tieBars36 :=
  have hmem : ((0:ℚ), 25) ∈ lcNeighbors (fun _ => (0:ℚ)) tieBars36 := by
    rw [lcNeighbors_tie]
    simp
  ⟨hmem,
   ((lc_no_lookahead (fun _ => (0:ℚ)) tieBars36).2 ((0:ℚ), 25) hmem).1,
   ((lc_no_lookahead (fun _ => (0:ℚ)) tieBars36).2 ((0:ℚ), 25) hmem).2⟩

/-! ## C4: hybrid resolver source atomicity -/

/-- C4 (amended).  With a fresh snapshot every detector output is
taken from the snapshot as one unit — except that inside the returned
MarketContext, `atr_m5` is always recomputed locally from bars and
`atr_to_spread` falls back to the locally computed ATR over spread
when the snapshot's value is nonpositive.  With no snapshot or a stale
one, every detector output is recomputed locally from bars as one
unit.  The original "never mixes snapshot-supplied fields with locally
recomputed fields" fails on the fresh branch (`hybrid_mixing_cx`). -/
theorem hybrid_resolver_branches (lg : ℚ → ℚ) (tv_cache : Option TVSignalCache)
    (now : ℚ) (rates_m5 : List Bar) (rates_m15 : Option (List Bar))
    (spread atr_m5 : ℚ) (action session_rank : String) :
    (∀ c, tv_cache = some c → now - c.recv_ts ≤ TV_SIGNAL_STALE_SEC →
      resolve_hybrid_ai_inputs lg tv_cache now rates_m5 rates_m15 spread atr_m5
          action session_rank =
        { ctx := { current_session := session_rank,
                   distance_atr_ratio := c.distance_atr_ratio,
                   atr_to_spread := if c.atr_to_spread > 0 then c.atr_to_spread
                                    else if spread > 0 then calc_atr rates_m5 14 / spread
                                    else 0,
                   volatility_ratio := c.volatility_ratio,
                   vol_state := c.vol_state,
                   direction_vs_sma := c.direction_vs_sma,
                   sma20_m15 := c.sma20_m15,
                   atr_m5 := calc_atr rates_m5 14 },
          lc_dir := c.lc_direction, lc_conf := c.lc_conf,
          qtrend_dir := c.qtrend_dir, qtrend_str := c.qtrend_str,
          qtrend_changed := c.qtrend_changed,
          zone := { confirmed_support := c.zone_confirmed_support,
                    confirmed_resist := c.zone_confirmed_resist,
                    touching_zone := c.zone_touching,
                    zone_type := c.zone_type,
                    zone_price := c.zone_price,
                    zone_strength := c.zone_strength },
          osgfc_color := c.osgfc_color, osgfc_changed := c.osgfc_changed,
          m15_fvg_targets := c.m15_fvg_targets,
          source_tag := "TV" }) ∧
    (is_tv_fresh tv_cache now = false →
      resolve_hybrid_ai_inputs lg tv_cache now rates_m5 rates_m15 spread atr_m5
          action session_rank =
        { ctx := calc_market_context rates_m5 rates_m15 spread session_rank,
          lc_dir := (lorentzian_classify lg rates_m5).1,
          lc_conf := (lorentzian_classify lg rates_m5).2,
          qtrend_dir := (calc_qtrend rates_m5).1,
          qtrend_str := (calc_qtrend rates_m5).2.1,
          qtrend_changed := (calc_qtrend rates_m5).2.2,
          zone := detect_zones rates_m5 rates_m15 atr_m5,
          osgfc_color := (calc_osgfc rates_m5).1,
          osgfc_changed := (calc_osgfc rates_m5).2,
          m15_fvg_targets := find_m15_fvg_targets rates_m15 action,
          source_tag := "MT5" }) := by
  constructor
  · intro c hc hfresh
    subst hc
    simp only [resolve_hybrid_ai_inputs]
    rw [if_pos hfresh]
    rfl
  · intro hfalse
    cases tv_cache with
    | none => rfl
    | some c =>
        simp only [is_tv_fresh, decide_eq_false_iff_not] at hfalse
        simp only [resolve_hybrid_ai_inputs]
        rw [if_neg hfalse]
        rfl

/-- C4 counterexample: one fresh-snapshot evaluation mixes sources.
The snapshot supplies `lc_direction = "BUY"` (the local classifier
would say NEUTRAL on these 16 bars), while the returned MarketContext
carries `atr_m5 = 1` and `atr_to_spread = 2`, both computed locally
from the bars because the snapshot's own `atr_to_spread` is 0. -/
theorem hybrid_mixing_cx :
    (resolve_hybrid_ai_inputs (fun _ => (0:ℚ)) (some tvSnapshotZeroATS) 120 atrBars16
        none (1/2) 1 "BUY" "A").source_tag = "TV" ∧
    (resolve_hybrid_ai_inputs (fun _ => (0:ℚ)) (some tvSnapshotZeroATS) 120 atrBars16
        none (1/2) 1 "BUY" "A").lc_dir = "BUY" ∧
    (resolve_hybrid_ai_inputs (fun _ => (0:ℚ)) (some tvSnapshotZeroATS) 120 atrBars16
        none (1/2) 1 "BUY" "A").ctx.atr_m5 = 1 ∧
    (resolve_hybrid_ai_inputs (fun _ => (0:ℚ)) (some tvSnapshotZeroATS) 120 atrBars16
        none (1/2) 1 "BUY" "A").ctx.atr_to_spread = 2 ∧
    tvSnapshotZeroATS.atr_to_spread = 0 ∧
    (lorentzian_classify (fun _ => (0:ℚ)) atrBars16).1 = "NEUTRAL" := by
  have hatr : calc_atr atrBars16 14 = 1 := by
    norm_num [calc_atr, atrBars16, aBar, trueRanges, takeLast, npMean]
  have hfresh : (120:ℚ) - tvSnapshotZeroATS.recv_ts ≤ TV_SIGNAL_STALE_SEC := by
    norm_num [tvSnapshotZeroATS, TV_SIGNAL_STALE_SEC]
  have hres : resolve_hybrid_ai_inputs (fun _ => (0:ℚ)) (some tvSnapshotZeroATS) 120
      atrBars16 none (1/2) 1 "BUY" "A" =
      hybridFromTV tvSnapshotZeroATS atrBars16 (1/2) 1 "A" := by
    simp only [resolve_hybrid_ai_inputs]
    rw [if_pos hfresh]
  refine ⟨?_, ?_, ?_, ?_, rfl, ?_⟩
  · rw [hres]
    rfl
  · rw [hres]
    rfl
  · rw [hres]
    simp [hybridFromTV, tv_cache_to_market_context, hatr]
  · rw [hres]
    norm_num [hybridFromTV, tv_cache_to_market_context, tvSnapshotZeroATS, hatr]
  · simp only [lorentzian_classify]
    rw [if_pos (by norm_num [show atrBars16.length = 16 from rfl])]

/-- Witness for `hybrid_resolver_branches`, one instance per branch:
a fresh snapshot resolves from TradingView, an absent snapshot
resolves from the local computations. -/
theorem hybrid_resolver_branches_witness :
    ((120:ℚ) - tvSnapshotZeroATS.recv_ts ≤ TV_SIGNAL_STALE_SEC ∧
      (resolve_hybrid_ai_inputs (fun _ => (0:ℚ)) (some tvSnapshotZeroATS) 120 [] none 1 1
        "BUY" "A").source_tag = "TV") ∧
    (is_tv_fresh none (5:ℚ) = false ∧
      (resolve_hybrid_ai_inputs (fun _ => (0:ℚ)) none 5 [] none 1 1 "BUY"
        "A").source_tag = "MT5") :=
  ⟨⟨by norm_num [tvSnapshotZeroATS, TV_SIGNAL_STALE_SEC],
    by
      rw [(hybrid_resolver_branches (fun _ => (0:ℚ)) (some tvSnapshotZeroATS) 120 [] none
        1 1 "BUY" "A").1 tvSnapshotZeroATS rfl
        (by norm_num [tvSnapshotZeroATS, TV_SIGNAL_STALE_SEC])]⟩,
   ⟨rfl,
    by rw [(hybrid_resolver_branches (fun _ => (0:ℚ)) none 5 [] none 1 1 "BUY" "A").2 rfl]⟩⟩

end LRR
